import Mathlib

/-!
# Scripted transactions: `arangod/VocBase/Methods/Transactions.cpp`

A shallow embedding of `executeTransaction`, `extractArangoError` and
`executeTransactionJS`.  The scripting runtime, the transaction engine and the
document codec are collaborators that the source only calls; they enter the
model as the fields of `Runtime`.  Every call the source makes on a collaborator
that a property talks about is recorded, in order, in a trace of `Event`s.
-/

namespace arangodb

/-! ## Machine numbers -/

/-- An IEEE double as the source uses it: it is only copied, compared with `0.0`
and truncated to an integer.  A finite double is `m * 2 ^ e`; this covers every
finite double (and both zeroes, which the source cannot tell apart). -/
inductive Double where
  | nan
  | inf (negative : Bool)
  | finite (m : Int) (e : Int)
deriving DecidableEq, Repr

/-- The comparison `d < 0.0` (line 192); false for NaN and for both zeroes. -/
def Double.ltZero : Double → Bool
  | .nan => false
  | .inf negative => negative
  | .finite m _ => decide (m < 0)

/-- Truncation toward zero of a finite double. -/
def Double.truncate : Double → Option Int
  | .finite m e => some (if 0 ≤ e then m * 2 ^ e.toNat else Int.tdiv m (2 ^ (-e).toNat))
  | _ => none

/-- Conversion of an integer to `std::uint64_t` (line 125). -/
def toUInt64 (z : Int) : Int := z % 2 ^ 64

/-- Conversion of an integer to the 32 bit `int` that `Result` stores (line 128). -/
def toInt32 (z : Int) : Int := (z + 2 ^ 31) % 2 ^ 32 - 2 ^ 31

/-! ## Script values -/

/-- A value of the scripting runtime, as far as the source inspects it.  An object
carries the named properties it exposes (own or inherited); a function carries an
identifier under which the runtime knows how to call it. -/
inductive V8Value where
  | undefined
  | null
  | boolean (b : Bool)
  | number (d : Double)
  | string (s : String)
  | booleanObject (b : Bool)
  | array (elems : List V8Value)
  | function (fn : Nat) (props : List (String × V8Value))
  | object (props : List (String × V8Value))

namespace V8Value

def IsUndefined : V8Value → Bool
  | .undefined => true
  | _ => false

def IsBoolean : V8Value → Bool
  | .boolean _ => true
  | _ => false

def IsBooleanObject : V8Value → Bool
  | .booleanObject _ => true
  | _ => false

def IsNumber : V8Value → Bool
  | .number _ => true
  | _ => false

def IsString : V8Value → Bool
  | .string _ => true
  | _ => false

def IsArray : V8Value → Bool
  | .array _ => true
  | _ => false

def IsFunction : V8Value → Bool
  | .function _ _ => true
  | _ => false

/-- The test `IsObject()`: arrays, functions and boxed primitives are objects. -/
def IsObject : V8Value → Bool
  | .booleanObject _ => true
  | .array _ => true
  | .function _ _ => true
  | .object _ => true
  | _ => false

/-- The named properties a value exposes.  None of the attribute names the source
looks up is an array index or `length`, so an array exposes none of them. -/
def props : V8Value → List (String × V8Value)
  | .function _ ps => ps
  | .object ps => ps
  | _ => []

/-- The lookup `obj->Has(key)`; a property whose value is `undefined` is present. -/
def Has (v : V8Value) (key : String) : Bool := (v.props.lookup key).isSome

/-- The lookup `obj->Get(key)`; an absent property reads as `undefined`. -/
def Get (v : V8Value) (key : String) : V8Value := (v.props.lookup key).getD .undefined

end V8Value

/-- A handle on a value; `none` is the empty handle that `IsEmpty()` detects. -/
abbrev Handle := Option V8Value

/-- The casts `v8::Handle<T>::Cast(value)`: re-typing keeps the handle. -/
def Handle.Cast (v : V8Value) : Handle := some v

/-! ## Documents -/

/-- A structured document (`VPackSlice`); the source only asks `isObject()`. -/
inductive VPackSlice where
  | none
  | null
  | bool (b : Bool)
  | number (d : Double)
  | string (s : String)
  | array (elems : List VPackSlice)
  | object (entries : List (String × VPackSlice))

def VPackSlice.isObject : VPackSlice → Bool
  | .object _ => true
  | _ => false

def VPackSlice.noneSlice : VPackSlice := .none

/-! ## Results and error codes -/

/-- The class `arangodb::Result`: an error number and a message. -/
structure Result where
  errorNumber : Int
  errorMessage : String
deriving DecidableEq, Repr

/-- Error numbers of the repository's error table, which the source names. -/
def TRI_ERROR_NO_ERROR : Int := 0
def TRI_ERROR_OUT_OF_MEMORY : Int := 3
def TRI_ERROR_INTERNAL : Int := 4
def TRI_ERROR_BAD_PARAMETER : Int := 10
def TRI_ERROR_TYPE_ERROR : Int := 17
def TRI_ERROR_ARANGO_DATABASE_NOT_FOUND : Int := 1228

namespace Result

/-- A default constructed `Result`. -/
def success : Result := ⟨TRI_ERROR_NO_ERROR, ""⟩

def ok (r : Result) : Bool := r.errorNumber == TRI_ERROR_NO_ERROR

def fail (r : Result) : Bool := !r.ok

end Result

/-! ## Transactions, exceptions and the trace -/

/-- The fields of `transaction::Options` that the source assigns. -/
structure Options where
  lockTimeout : Double
  waitForSync : Bool
  allowImplicitCollections : Bool
  maxTransactionSize : Nat
  intermediateCommitSize : Nat
  intermediateCommitCount : Nat
deriving DecidableEq, Repr

/-- What a `v8::TryCatch` holds once it has caught: the value of `Exception()`, the
answer of `CanContinue()`, the text of `Message()->Get()` and the text of
`StackTrace()`.  `CanContinue()` is false only after a termination; then
`Exception()` is `null` and `Message()` is an empty handle, so that there is no
text of a message to read: see `Caught.Message`. -/
structure Caught where
  exception : V8Value
  canContinue : Bool
  message : String
  stackTrace : String

/-- The handle `tryCatch.Message()`, as the text it gives: `none` is the empty
handle, which is what a `TryCatch` answers after a termination. -/
def Caught.Message (caught : Caught) : Option String :=
  if caught.canContinue then some caught.message else none

/-- The state of a `v8::TryCatch`: `none` while `HasCaught()` is false. -/
abbrev TryCatch := Option Caught

/-- The native exceptions that the handlers of lines 401 to 409 tell apart. -/
inductive NativeException where
  | arango (code : Int) (what : String)
  | badAlloc
  | std (what : String)
  | unknown

/-- The outcomes of `action->Call(current, 1, &arguments)`. -/
inductive CallOutcome where
  | returned (value : V8Value)
  | threw (caught : Caught)
  | native (ex : NativeException)

/-- The calls on collaborators that the source makes, as they are recorded. -/
inductive Event where
  | enterContext
  | exitContext
  | setCurrentRequest (request : V8Value)
  | resetCurrentRequest
  | newFunction (body : String)
  | trxConstruct (embed : Bool) (read write exclusive : List String) (options : Options)
  | trxBegin
  | trxAbort
  | trxCommit
  | call (fn : Nat) (argument : V8Value)

/-- The collaborators of the source.  Each field is code that the source calls and
that is not part of the source file. -/
structure Runtime where
  /-- The answer of `GetContextVocBase(isolate)`; `none` is `nullptr`. -/
  vocbase : Option Nat
  /-- A default constructed `transaction::Options`. -/
  defaultOptions : Options
  /-- The message that `Result::reset(int)` attaches to an error number. -/
  errnoString : Int → String
  /-- The helper `TRI_ObjectToBoolean` on a value that is no boolean. -/
  otherToBoolean : V8Value → Bool
  /-- The helper `TRI_ObjectToDouble` on a value that is no number. -/
  otherToDouble : V8Value → Double
  /-- The helper `TRI_ObjectToInt64` where truncation does not decide it. -/
  otherToInt64 : V8Value → Int
  /-- The helper `TRI_ObjectToUInt64`. -/
  objectToUInt64 : V8Value → Nat
  /-- The text of a value that is no string; `none` for a value without a text (a
  value whose conversion to a string throws). -/
  otherToString : V8Value → Option String
  /-- The built-in `Function` constructor on a parameter name and a body. -/
  newFunction : String → String → Except Caught Nat
  /-- Calling a function on one argument. -/
  call : Nat → V8Value → CallOutcome
  /-- The result of `trx.begin()`, given the calls made so far. -/
  trxBegin : List Event → Result
  /-- The result of `trx.commit()`, given the calls made so far. -/
  trxCommit : List Event → Result
  /-- Whether `enterContext` hands out a context. -/
  contextAvailable : Bool
  /-- Whether `request->Set(portTypeKey, portTypeValue)` succeeds. -/
  setPortType : String → Bool
  /-- The decoder `TRI_VPackToV8`. -/
  vpackToV8 : VPackSlice → V8Value
  /-- The encoder `TRI_V8ToVPack`, as the one value it adds to a builder. -/
  v8ToVPack : V8Value → VPackSlice

/-! ## Conversion helpers -/

/-- Modelled from the spec: `Result::reset(int)` is not part of the source file;
it stores the error number together with the message the error table has for it. -/
def Result.reset (rt : Runtime) (errorNumber : Int) : Result :=
  ⟨errorNumber, rt.errnoString errorNumber⟩

/-- Modelled from the spec: `TRI_ObjectToBoolean` is not part of the source file;
a boolean is transcribed as it is, every other value is left to the runtime. -/
def TRI_ObjectToBoolean (rt : Runtime) : V8Value → Bool
  | .boolean b => b
  | .booleanObject b => b
  | v => rt.otherToBoolean v

/-- Modelled from the spec: `TRI_ObjectToDouble` is not part of the source file;
a number is transcribed as it is, every other value is left to the runtime. -/
def TRI_ObjectToDouble (rt : Runtime) : V8Value → Double
  | .number d => d
  | v => rt.otherToDouble v

/-- Modelled from the spec: `TRI_ObjectToInt64` is not part of the source file;
a finite number within the range of `int64_t` is truncated toward zero, every
other value is left to the runtime. -/
def TRI_ObjectToInt64 (rt : Runtime) (v : V8Value) : Int :=
  match v with
  | .number d =>
    match d.truncate with
    | some z => if -(2 ^ 63) ≤ z ∧ z < 2 ^ 63 then z else rt.otherToInt64 v
    | none => rt.otherToInt64 v
  | _ => rt.otherToInt64 v

/-- Modelled from the spec: `TRI_ObjectToString` is not part of the source file;
a string contributes its text, every other value is rendered by the runtime, and
a value without a text gives the empty string.  The source applies it to string
values only (lines 275, 279 and 352). -/
def TRI_ObjectToString (rt : Runtime) : V8Value → String
  | .string s => s
  | v => (rt.otherToString v).getD ""

/-- Modelled from the spec: the text `*v8::String::Utf8Value(value)`; a string is
taken verbatim, every other value is rendered by the runtime.  For a value without
a text the pointer is null (`none`), and building a `std::string` from it throws. -/
def Utf8Value (rt : Runtime) : V8Value → Option String
  | .string s => some s
  | v => rt.otherToString v

/-! ## `extractArangoError` (lines 103 to 153) -/

/-- The function `extractArangoError`, on a `TryCatch` that has caught (its only
caller tests `HasCaught()` first).  It answers the tuple (can continue, could
convert, extracted error) and the state in which it leaves the `TryCatch`.  Where
the text of line 126, 137 or 138 cannot be built, the exception that this raises
is swallowed by the handler of line 148: nothing has been stored or reset by then,
and line 152 returns the tuple as it was initialised. -/
def extractArangoError (rt : Runtime) (tryCatch : Caught) : (Bool × Bool × Result) × TryCatch :=
  let canContinue := tryCatch.canContinue
  let exception := tryCatch.exception
  if !exception.IsObject then
    ((canContinue, false, Result.success), some tryCatch)
  else
    let object := exception
    if object.Has "errorNum" && object.Has "errorMessage" then
      let errorNum := toUInt64 (TRI_ObjectToInt64 rt (object.Get "errorNum"))
      match Utf8Value rt (object.Get "errorMessage") with
      | none => ((canContinue, false, Result.success), some tryCatch)
      | some errorMessage =>
        ((canContinue, true, ⟨toInt32 errorNum, errorMessage⟩), none)
    else if object.Has "name" && object.Has "message" then
      match Utf8Value rt (object.Get "name") with
      | none => ((canContinue, false, Result.success), some tryCatch)
      | some name =>
        match Utf8Value rt (object.Get "message") with
        | none => ((canContinue, false, Result.success), some tryCatch)
        | some message =>
          if name = "TypeError" then
            ((canContinue, true, ⟨TRI_ERROR_TYPE_ERROR, message⟩), none)
          else
            ((canContinue, true, ⟨TRI_ERROR_INTERNAL, name ++ ": " ++ message⟩), none)
    else
      ((canContinue, false, Result.success), some tryCatch)

/-! ## `executeTransactionJS` (lines 155 to 417) -/

/-- The in-out arguments of `executeTransactionJS` together with the trace. -/
structure JSState where
  /-- The handle `result`; `none` is the empty handle. -/
  result : Handle
  tryCatch : TryCatch
  canContinue : Bool
  trace : List Event

def timeoutError : String := "<lockTimeout> must be a valid numeric value"

/-- Lines 181 to 199: the attribute `lockTimeout`. -/
def readLockTimeout (rt : Runtime) (object : V8Value) (trxOptions : Options) :
    Except Result Options :=
  if object.Has "lockTimeout" then
    let rv : Result :=
      if !(object.Get "lockTimeout").IsNumber then ⟨TRI_ERROR_BAD_PARAMETER, timeoutError⟩
      else Result.success
    let trxOptions : Options :=
      { trxOptions with lockTimeout := TRI_ObjectToDouble rt (object.Get "lockTimeout") }
    let rv : Result :=
      if trxOptions.lockTimeout.ltZero then ⟨TRI_ERROR_BAD_PARAMETER, timeoutError⟩ else rv
    if rv.fail then .error rv else .ok trxOptions
  else
    .ok trxOptions

/-- The global string `WaitForSyncKey`. -/
def WaitForSyncKey : String := "waitForSync"

/-- Lines 201 to 212: the attribute `waitForSync`.  Line 211 converts the key. -/
def readWaitForSync (rt : Runtime) (object : V8Value) (trxOptions : Options) :
    Except Result Options :=
  if object.Has WaitForSyncKey then
    if !(object.Get WaitForSyncKey).IsBoolean && !(object.Get WaitForSyncKey).IsBooleanObject then
      .error ⟨TRI_ERROR_BAD_PARAMETER, "<waitForSync> must be a boolean value"⟩
    else
      .ok { trxOptions with waitForSync := TRI_ObjectToBoolean rt (.string WaitForSyncKey) }
  else
    .ok trxOptions

/-- Lines 239 to 255: the options that are read without a check. -/
def readSizeOptions (rt : Runtime) (object collections : V8Value) (trxOptions : Options) :
    Options :=
  let trxOptions : Options :=
    if collections.Has "allowImplicit" then
      { trxOptions with
        allowImplicitCollections := TRI_ObjectToBoolean rt (collections.Get "allowImplicit") }
    else trxOptions
  let trxOptions : Options :=
    if object.Has "maxTransactionSize" then
      { trxOptions with
        maxTransactionSize := rt.objectToUInt64 (object.Get "maxTransactionSize") }
    else trxOptions
  let trxOptions : Options :=
    if object.Has "intermediateCommitSize" then
      { trxOptions with
        intermediateCommitSize := rt.objectToUInt64 (object.Get "intermediateCommitSize") }
    else trxOptions
  if object.Has "intermediateCommitCount" then
    { trxOptions with
      intermediateCommitCount := rt.objectToUInt64 (object.Get "intermediateCommitCount") }
  else trxOptions

/-- Lines 266 to 276: the loop over the array `names`, from index `i` on.  It
answers whether every name was a string, the extended `collections` and the
extended `collectionError`. -/
def getCollectionsLoop (rt : Runtime) (attributeName : String) :
    List V8Value → Nat → List String → String → Bool × List String × String
  | [], _, collections, collectionError => (true, collections, collectionError)
  | collection :: names, i, collections, collectionError =>
    if !collection.IsString then
      (false, collections,
        collectionError ++ (" Collection name #" ++ toString i ++ " in array \x27" ++
          attributeName ++ "\x27 is not a string"))
    else
      getCollectionsLoop rt attributeName names (i + 1)
        (collections ++ [TRI_ObjectToString rt collection]) collectionError

/-- Lines 257 to 287: the lambda `getCollections`. -/
def getCollections (rt : Runtime) (obj : V8Value) (collections : List String)
    (attributeName : String) (collectionError : String) : Bool × List String × String :=
  if obj.Has attributeName then
    match obj.Get attributeName with
    | .array names => getCollectionsLoop rt attributeName names 0 collections collectionError
    | .string s => (true, collections ++ [TRI_ObjectToString rt (.string s)], collectionError)
    | _ =>
      (false, collections,
        collectionError ++ (" There is no array in \x27" ++ attributeName ++ "\x27"))
  else
    (true, collections, collectionError)

/-- Lines 289 to 299: the three buckets, joined by the short-circuit `&&`. -/
def classifyCollections (rt : Runtime) (collections : V8Value) :
    Except Result (List String × List String × List String) :=
  let collectionError := "invalid collection definition for transaction: "
  match getCollections rt collections [] "read" collectionError with
  | (false, _, collectionError) => .error ⟨TRI_ERROR_BAD_PARAMETER, collectionError⟩
  | (true, readCollections, collectionError) =>
    match getCollections rt collections [] "write" collectionError with
    | (false, _, collectionError) => .error ⟨TRI_ERROR_BAD_PARAMETER, collectionError⟩
    | (true, writeCollections, collectionError) =>
      match getCollections rt collections [] "exclusive" collectionError with
      | (false, _, collectionError) => .error ⟨TRI_ERROR_BAD_PARAMETER, collectionError⟩
      | (true, exclusiveCollections, _) =>
        .ok (readCollections, writeCollections, exclusiveCollections)

/-- What lines 179 to 331 extract from the request object. -/
structure Request where
  trxOptions : Options
  readCollections : List String
  writeCollections : List String
  exclusiveCollections : List String
  params : V8Value
  embed : Bool

/-- Lines 179 to 331: the options, the collections, the presence of `action`, the
parameters and `embed`.  Nothing here touches a collaborator. -/
def decodeRequest (rt : Runtime) (object : V8Value) : Except Result Request :=
  match readLockTimeout rt object rt.defaultOptions with
  | .error rv => .error rv
  | .ok trxOptions =>
  match readWaitForSync rt object trxOptions with
  | .error rv => .error rv
  | .ok trxOptions =>
  if !object.Has "collections" || !(object.Get "collections").IsObject then
    .error ⟨TRI_ERROR_BAD_PARAMETER, "missing/invalid collections definition for transaction"⟩
  else
  match Handle.Cast (object.Get "collections") with
  | none => .error ⟨TRI_ERROR_BAD_PARAMETER, "empty collections definition for transaction"⟩
  | some collections =>
  let trxOptions := readSizeOptions rt object collections trxOptions
  match classifyCollections rt collections with
  | .error rv => .error rv
  | .ok (readCollections, writeCollections, exclusiveCollections) =>
  if !object.Has "action" then
    .error ⟨TRI_ERROR_BAD_PARAMETER, "missing/invalid action definition for transaction"⟩
  else
  let params : Handle :=
    if object.Has "params" then Handle.Cast (object.Get "params") else some .undefined
  match params with
  | none => .error ⟨TRI_ERROR_BAD_PARAMETER, "unable to decode function parameters"⟩
  | some params =>
  let embed : Bool :=
    if object.Has "embed" then TRI_ObjectToBoolean rt (object.Get "embed") else false
  .ok ⟨trxOptions, readCollections, writeCollections, exclusiveCollections, params, embed⟩

/-- Lines 335 to 376: the callback function.  A function is taken as it is; a string
is handed to the `Function` constructor, and a pending exception after that call is
turned into the result and reset; it is the exception that the constructor threw,
for which the runtime has a message, so that lines 360 and 362 read the texts of the
record as they stand.  The naming of the function (lines 340 to 344 and 367) has no
bearing on any result and is left out. -/
def resolveAction (rt : Runtime) (object : V8Value) (st : JSState) :
    Except (Result × JSState) (Nat × JSState) :=
  let actionError := "missing/invalid action definition for transaction"
  match object.Get "action" with
  | .function fn _ => .ok (fn, st)
  | .string source =>
    let body := "return (" ++ TRI_ObjectToString rt (.string source) ++ ")(params);"
    let st := { st with trace := st.trace ++ [Event.newFunction body] }
    let created := rt.newFunction "params" body
    let action : Option Nat :=
      match created with
      | .ok fn => some fn
      | .error _ => none
    let st : JSState :=
      match created with
      | .ok _ => st
      | .error caught => { st with tryCatch := some caught }
    match st.tryCatch with
    | some caught =>
      .error (⟨TRI_ERROR_BAD_PARAMETER,
          actionError ++ " - " ++ caught.message ++ " - " ++ caught.stackTrace⟩,
        { st with tryCatch := none })
    | none =>
      match action with
      | none => .error (⟨TRI_ERROR_BAD_PARAMETER, actionError⟩, st)
      | some fn => .ok (fn, st)
  | _ => .error (⟨TRI_ERROR_BAD_PARAMETER, actionError⟩, st)

/-- The handlers of lines 401 to 409. -/
def nativeResult (rt : Runtime) : NativeException → Result
  | .arango code what => ⟨code, what⟩
  | .badAlloc => Result.reset rt TRI_ERROR_OUT_OF_MEMORY
  | .std what => ⟨TRI_ERROR_INTERNAL, what⟩
  | .unknown => ⟨TRI_ERROR_INTERNAL, "caught unknown exception during transaction"⟩

/-- Lines 411 to 416: return a failure, commit otherwise. -/
def finishTransaction (rt : Runtime) (rv : Result) (st : JSState) : Result × JSState :=
  if rv.fail then (rv, st)
  else (rt.trxCommit st.trace, { st with trace := st.trace ++ [Event.trxCommit] })

/-- Lines 390 to 416: call the action and end the transaction; `rv` is the result
of `begin()`. -/
def invokeAction (rt : Runtime) (action : Nat) (params : V8Value) (rv : Result)
    (st : JSState) : Result × JSState :=
  let st := { st with trace := st.trace ++ [Event.call action params] }
  match rt.call action params with
  | .native ex => finishTransaction rt (nativeResult rt ex) st
  | .returned value =>
    let st := { st with result := some value }
    match st.tryCatch with
    | none => finishTransaction rt rv st
    | some caught =>
      let st := { st with trace := st.trace ++ [Event.trxAbort] }
      let rvTuple := extractArangoError rt caught
      let st := { st with tryCatch := rvTuple.2, canContinue := rvTuple.1.1 }
      finishTransaction rt (if rvTuple.1.2.1 then rvTuple.1.2.2 else rv) st
  | .threw caught =>
    let st := { st with result := none, tryCatch := some caught }
    let st := { st with trace := st.trace ++ [Event.trxAbort] }
    let rvTuple := extractArangoError rt caught
    let st := { st with tryCatch := rvTuple.2, canContinue := rvTuple.1.1 }
    finishTransaction rt (if rvTuple.1.2.1 then rvTuple.1.2.2 else rv) st

/-- Lines 378 to 388: construct the transaction and begin it. -/
def beginTransaction (rt : Runtime) (request : Request) (st : JSState) : Result × JSState :=
  let st := { st with trace := st.trace ++
    [Event.trxConstruct request.embed request.readCollections request.writeCollections
      request.exclusiveCollections request.trxOptions] }
  (rt.trxBegin st.trace, { st with trace := st.trace ++ [Event.trxBegin] })

/-- Lines 163 to 388 of `executeTransactionJS`: everything before the action is
called.  It answers the early return, or the action, its argument, the result of
`begin()` and the state.  The local builder of lines 175 and 176 is never read and
is left out. -/
def prepareTransaction (rt : Runtime) (arg : V8Value) (st : JSState) :
    Except (Result × JSState) (Nat × V8Value × Result × JSState) :=
  let st := { st with canContinue := true }
  match rt.vocbase with
  | none => .error (Result.reset rt TRI_ERROR_ARANGO_DATABASE_NOT_FOUND, st)
  | some _ =>
  let object := arg
  match decodeRequest rt object with
  | .error rv => .error (rv, st)
  | .ok request =>
  match resolveAction rt object st with
  | .error out => .error out
  | .ok (action, st) =>
  match beginTransaction rt request st with
  | (rv, st) =>
  if rv.fail then .error (rv, st)
  else .ok (action, request.params, rv, st)

/-- The function `executeTransactionJS`: lines 163 to 388, then lines 390 to 416. -/
def executeTransactionJS (rt : Runtime) (arg : V8Value) (st : JSState) : Result × JSState :=
  match prepareTransaction rt arg st with
  | .error out => out
  | .ok (action, params, rv, st) => invokeAction rt action params rv st

/-! ## `executeTransaction` (lines 38 to 100) -/

/-- The state that `executeTransaction` works on: the output builder (the values
added to it), the fields `_canceled` and `_currentRequest` of the globals of the
execution context, and the trace. -/
structure ServerState where
  builder : List VPackSlice
  canceled : Bool
  currentRequest : V8Value
  trace : List Event

/-- Lines 38 to 79 of `executeTransaction`: everything up to the cancellation of
the context.  It answers the early return (lines 44, 50 and 69), or the result of
`executeTransactionJS`, the state it left behind and the state after line 79.
The destructor of `v8gHelper` (line 34) runs where its scope ends, at line 75; the
deferred `exitContext` of line 52 runs at every return after line 47. -/
def enterAndExecute (rt : Runtime) (slice : VPackSlice) (portType : String)
    (s : ServerState) : Except (Result × ServerState) (Result × JSState × ServerState) :=
  if !slice.isObject then
    .error (⟨TRI_ERROR_BAD_PARAMETER, "body is not an object"⟩, s)
  else
  let s := { s with trace := s.trace ++ [Event.enterContext] }
  if !rt.contextAvailable then
    .error (⟨TRI_ERROR_INTERNAL, "unable to get v8 context"⟩, s)
  else
  let input := rt.vpackToV8 slice
  let request := V8Value.object [("portType", V8Value.string portType)]
  if !rt.setPortType portType then
    .error (⟨TRI_ERROR_INTERNAL, "could not set porttype"⟩,
      { s with trace := s.trace ++ [Event.exitContext] })
  else
  let s := { s with currentRequest := request,
                    trace := s.trace ++ [Event.setCurrentRequest request] }
  match executeTransactionJS rt input ⟨none, none, true, s.trace⟩ with
  | (rv, js) =>
  let s := { s with currentRequest := V8Value.undefined,
                    trace := js.trace ++ [Event.resetCurrentRequest] }
  let s := if !js.canContinue then { s with canceled := true } else s
  .ok (rv, js, s)

/-- The function `executeTransaction`: lines 38 to 79, then lines 81 to 99.  It
answers `none` where the source reads an empty handle, which the language leaves
undefined: at line 83 when the pending exception has no message (after a
termination), and at line 91 after a call that left `result` empty. -/
def executeTransaction (rt : Runtime) (slice : VPackSlice) (portType : String)
    (s : ServerState) : Option (Result × ServerState) :=
  match enterAndExecute rt slice portType s with
  | .error out => some out
  | .ok (rv, js, s) =>
  let rv : Option Result :=
    match js.tryCatch with
    | some caught =>
      match caught.Message with
      | some msg => some ⟨TRI_ERROR_INTERNAL, msg⟩
      | none => none
    | none => some rv
  match rv with
  | none => none
  | some rv =>
  if rv.fail then
    some (rv, { s with trace := s.trace ++ [Event.exitContext] })
  else
  match js.result with
  | none => none
  | some result =>
    let s :=
      if result.IsUndefined then { s with builder := s.builder ++ [VPackSlice.noneSlice] }
      else { s with builder := s.builder ++ [rt.v8ToVPack result] }
    some (rv, { s with trace := s.trace ++ [Event.exitContext] })

/-- The text of a string value. -/
def V8Value.stringText : V8Value → Option String
  | .string s => some s
  | _ => none

/-- In the words of the specification: the names a bucket of the `collections`
object stands for.  An absent attribute is the empty bucket, a single string
contributes exactly one name, an array of strings contributes its elements in
their order, and any other shape is an error (`none`). -/
def specBucket (collections : V8Value) (attributeName : String) : Option (List String) :=
  if collections.Has attributeName then
    match collections.Get attributeName with
    | .string s => some [s]
    | .array names =>
      if names.all V8Value.IsString then some (names.filterMap V8Value.stringText) else none
    | _ => none
  else
    some []

/-- The description that `getCollections` appends for a malformed bucket, `none`
for a bucket it accepts. -/
def bucketError (rt : Runtime) (collections : V8Value) (attributeName : String) :
    Option String :=
  if (getCollections rt collections [] attributeName "").1 then none
  else some (getCollections rt collections [] attributeName "").2.2

/-- The description of the first malformed bucket in the order in which lines 292
to 294 visit them. -/
def firstBucketError (rt : Runtime) (collections : V8Value) : Option String :=
  match bucketError rt collections "read" with
  | some e => some e
  | none =>
    match bucketError rt collections "write" with
    | some e => some e
    | none => bucketError rt collections "exclusive"

/-- How often `commit()` was called according to a trace. -/
def commitCalls (trace : List Event) : Nat :=
  trace.countP fun e => match e with
    | .trxCommit => true
    | _ => false

/-- How often `abort()` was called according to a trace. -/
def abortCalls (trace : List Event) : Nat :=
  trace.countP fun e => match e with
    | .trxAbort => true
    | _ => false

/-- How often the action was called according to a trace. -/
def actionCalls (trace : List Event) : Nat :=
  trace.countP fun e => match e with
    | .call _ _ => true
    | _ => false

/-- How often `exitContext` was called according to a trace. -/
def exitCalls (trace : List Event) : Nat :=
  trace.countP fun e => match e with
    | .exitContext => true
    | _ => false

/-! ## Worked inputs

A concrete runtime and concrete requests, on which the statements below are run. -/

mutual
/-- A document decoder for the worked inputs: the value of the same shape. -/
def sampleDecode : VPackSlice → V8Value
  | .none => .undefined
  | .null => .null
  | .bool b => .boolean b
  | .number d => .number d
  | .string s => .string s
  | .array elems => .array (sampleDecodeList elems)
  | .object entries => .object (sampleDecodeEntries entries)
def sampleDecodeList : List VPackSlice → List V8Value
  | [] => []
  | x :: xs => sampleDecode x :: sampleDecodeList xs
def sampleDecodeEntries : List (String × VPackSlice) → List (String × V8Value)
  | [] => []
  | (k, v) :: rest => (k, sampleDecode v) :: sampleDecodeEntries rest
end

/-- The options the sample runtime starts from. -/
def sampleOptions : Options := ⟨.finite 0 0, false, false, 0, 0, 0⟩

/-- A runtime for the worked inputs: a database and a context are there, `begin()`
and `commit()` succeed, the `Function` constructor answers function `0`, and a
call has the outcome that `call` gives.  An object that carries a `toString` of its
own stands for one whose conversion to a string throws: it has no text. -/
def sampleRuntime (call : Nat → V8Value → CallOutcome) : Runtime where
  vocbase := some 1
  defaultOptions := sampleOptions
  errnoString := fun _ => "error"
  otherToBoolean := fun _ => false
  otherToDouble := fun _ => .finite 0 0
  otherToInt64 := fun _ => 0
  objectToUInt64 := fun _ => 0
  otherToString := fun v => if v.Has "toString" then none else some "[object]"
  newFunction := fun _ _ => .ok 0
  call := call
  trxBegin := fun _ => Result.success
  trxCommit := fun _ => Result.success
  contextAvailable := true
  setPortType := fun _ => true
  vpackToV8 := sampleDecode
  v8ToVPack := fun _ => .null

/-- The in-out arguments as `executeTransaction` passes them in. -/
def freshJS : JSState := ⟨none, none, true, []⟩

/-- A server state before any call. -/
def freshServer : ServerState := ⟨[], false, .undefined, []⟩

/-- A thrown string: no object, hence no structured error. -/
def thrownString : Caught := ⟨.string "oops", true, "Uncaught oops", ""⟩

/-- A request with an empty `collections` object and function `7` as its action. -/
def requestEmptyCollections : V8Value :=
  .object [("collections", .object []), ("action", .function 7 [])]

/-- A request that reads collection `c` and has function `7` as its action. -/
def requestRead : V8Value :=
  .object [("collections", .object [("read", .string "c")]), ("action", .function 7 [])]

/-- A document whose action is source text that throws a string. -/
def sliceThrowing : VPackSlice :=
  .object [("collections", .object [("read", .string "c")]),
    ("action", .string "function (params) \x7b throw \x27oops\x27; \x7d")]

/-- A document with the lock timeout `-1`. -/
def sliceNegativeTimeout : VPackSlice :=
  .object [("lockTimeout", .number (.finite (-1) 0)),
    ("collections", .object [("read", .string "c")]),
    ("action", .string "function (params) \x7b return 1; \x7d")]

/-- The request object that `executeTransaction` builds for a port type. -/
def portRequest (portType : String) : V8Value :=
  .object [("portType", .string portType)]

/-- A request with the lock timeout `-1`. -/
def requestNegativeTimeout : V8Value :=
  .object [("lockTimeout", .number (.finite (-1) 0)),
    ("collections", .object [("read", .string "c")]), ("action", .function 7 [])]

/-- A request in which both `read` and `write` are numbers. -/
def requestTwoMalformed : V8Value :=
  .object [("collections",
      .object [("read", .number (.finite 1 0)), ("write", .number (.finite 2 0))]),
    ("action", .function 7 [])]

/-- A request with a single name to read, an array with a repeated name to write,
and no `exclusive` attribute. -/
def requestBuckets : V8Value :=
  .object [("collections",
      .object [("read", .string "a"),
        ("write", .array [.string "b", .string "b", .string "c"])]),
    ("action", .function 7 [])]

/-- A request whose `write` array has its first non-string element at index `2`. -/
def requestBadName : V8Value :=
  .object [("collections",
      .object [("read", .string "a"),
        ("write", .array [.string "b", .string "c", .null, .number (.finite 3 0)])]),
    ("action", .function 7 [])]

/-- What the `Function` constructor leaves pending on a body it cannot compile. -/
def thrownSyntaxError : Caught :=
  ⟨.object [("name", .string "SyntaxError"), ("message", .string "Unexpected token")], true,
    "Uncaught SyntaxError: Unexpected token", "SyntaxError: Unexpected token"⟩

/-- The sample runtime with a `Function` constructor that compiles nothing. -/
def sampleRuntimeNoCompile : Runtime :=
  { sampleRuntime (fun _ _ => .returned .undefined) with
    newFunction := fun _ _ => .error thrownSyntaxError }

/-- The sample runtime with a `begin()` that fails. -/
def sampleRuntimeBeginFails : Runtime :=
  { sampleRuntime (fun _ _ => .returned .undefined) with
    trxBegin := fun _ => ⟨1203, "collection not found"⟩ }

/-- The sample runtime without an execution context to hand out. -/
def sampleRuntimeNoContext : Runtime :=
  { sampleRuntime (fun _ _ => .returned .undefined) with contextAvailable := false }

/-- A document whose action is source text that does not compile. -/
def sliceNoCompile : VPackSlice :=
  .object [("collections", .object [("read", .string "c")]),
    ("action", .string "function (")]

/-- A request with parameters. -/
def requestParams : V8Value :=
  .object [("collections", .object [("read", .string "c")]), ("action", .function 7 []),
    ("params", .array [.number (.finite 1 0)])]

mutual
/-- A document encoder for the worked inputs: the document of the same shape; a
function and a boxed boolean, which documents do not have, become `null`. -/
def sampleEncode : V8Value → VPackSlice
  | .undefined => .none
  | .null => .null
  | .boolean b => .bool b
  | .number d => .number d
  | .string s => .string s
  | .booleanObject _ => .null
  | .array elems => .array (sampleEncodeList elems)
  | .function _ _ => .null
  | .object props => .object (sampleEncodeEntries props)
def sampleEncodeList : List V8Value → List VPackSlice
  | [] => []
  | x :: xs => sampleEncode x :: sampleEncodeList xs
def sampleEncodeEntries : List (String × V8Value) → List (String × VPackSlice)
  | [] => []
  | (k, v) :: rest => (k, sampleEncode v) :: sampleEncodeEntries rest
end

/-- The sample runtime with the encoder `sampleEncode`. -/
def sampleRuntimeEncoding (call : Nat → V8Value → CallOutcome) : Runtime :=
  { sampleRuntime call with v8ToVPack := sampleEncode }

/-- A document whose action is source text that returns `42`. -/
def sliceReturning : VPackSlice :=
  .object [("collections", .object [("read", .string "c")]),
    ("action", .string "function (params) \x7b return 42; \x7d")]

/-- A request whose `waitForSync` attribute is the boolean `b`. -/
def requestWaitForSync (b : Bool) : V8Value :=
  .object [("waitForSync", .boolean b), ("collections", .object [("read", .string "c")]),
    ("action", .function 7 [])]

/-- What a `TryCatch` holds after the execution was terminated: `Exception()` is
`null`, `CanContinue()` is false, and there is neither a message nor a stack
trace. -/
def caughtTermination : Caught := ⟨.null, false, "", ""⟩

theorem extractArangoError_canContinue (rt : Runtime) (caught : Caught) :
    (extractArangoError rt caught).1.1 = caught.canContinue ∧
    (((extractArangoError rt caught).1.2.1 = true ∧ (extractArangoError rt caught).2 = none) ∨
      ((extractArangoError rt caught).1.2.1 = false ∧
        (extractArangoError rt caught).2 = some caught)) := by
  unfold extractArangoError
  simp only []
  repeat' split
  all_goals simp

theorem readLockTimeout_error (rt : Runtime) (object : V8Value) (o : Options) (rv : Result)
    (h : readLockTimeout rt object o = .error rv) :
    rv = ⟨TRI_ERROR_BAD_PARAMETER, timeoutError⟩ := by
  unfold readLockTimeout at h
  split at h
  · by_cases h1 : (object.Get "lockTimeout").IsNumber = true <;>
    by_cases h2 : (TRI_ObjectToDouble rt (object.Get "lockTimeout")).ltZero = true <;>
    simp [h1, h2, Result.fail, Result.ok, Result.success, TRI_ERROR_BAD_PARAMETER,
      TRI_ERROR_NO_ERROR] at h <;> simp [← h, TRI_ERROR_BAD_PARAMETER]
  · simp at h

theorem readWaitForSync_error (rt : Runtime) (object : V8Value) (o : Options) (rv : Result)
    (h : readWaitForSync rt object o = .error rv) :
    rv = ⟨TRI_ERROR_BAD_PARAMETER, "<waitForSync> must be a boolean value"⟩ := by
  unfold readWaitForSync at h
  split at h
  · split at h
    · simp at h; exact h.symm
    · simp at h
  · simp at h

/-! ## The collection classifier -/

theorem getCollectionsLoop_strings (rt : Runtime) (attributeName : String)
    (names : List V8Value) (i : Nat) (collections : List String) (collectionError : String)
    (h : names.all V8Value.IsString = true) :
    getCollectionsLoop rt attributeName names i collections collectionError =
      (true, collections ++ names.filterMap V8Value.stringText, collectionError) := by
  induction names generalizing i collections with
  | nil => simp [getCollectionsLoop]
  | cons v rest ih =>
    simp only [List.all_cons, Bool.and_eq_true] at h
    obtain ⟨hv, hrest⟩ := h
    cases v with
    | string s =>
      simp [getCollectionsLoop, V8Value.IsString, ih _ _ hrest, V8Value.stringText,
        TRI_ObjectToString]
    | _ => simp [V8Value.IsString] at hv

theorem getCollectionsLoop_not_string (rt : Runtime) (attributeName : String)
    (names : List V8Value) (k i : Nat) (bad : V8Value) (collections : List String)
    (collectionError : String)
    (hbad : names[i]? = some bad) (hns : bad.IsString = false)
    (hpre : ∀ j, j < i → ∀ v, names[j]? = some v → v.IsString = true) :
    (getCollectionsLoop rt attributeName names k collections collectionError).1 = false ∧
    (getCollectionsLoop rt attributeName names k collections collectionError).2.2 =
      collectionError ++ (" Collection name #" ++ toString (k + i) ++ " in array \x27" ++
        attributeName ++ "\x27 is not a string") := by
  induction names generalizing k i collections with
  | nil => simp at hbad
  | cons v rest ih =>
    cases i with
    | zero =>
      simp at hbad
      subst hbad
      simp [getCollectionsLoop, hns]
    | succ i =>
      have hv : v.IsString = true := hpre 0 (Nat.succ_pos i) v (by simp)
      simp only [List.getElem?_cons_succ] at hbad
      have hpre2 : ∀ j, j < i → ∀ w, rest[j]? = some w → w.IsString = true := by
        intro j hj w hw
        exact hpre (j + 1) (Nat.succ_lt_succ hj) w (by simpa using hw)
      have := ih (k + 1) i (collections ++ [TRI_ObjectToString rt v]) hbad hpre2
      simp only [getCollectionsLoop, hv, Bool.not_true, Bool.false_eq_true, if_false]
      have e : k + 1 + i = k + (i + 1) := by omega
      rw [e] at this
      exact this

theorem getCollectionsLoop_error_append (rt : Runtime) (attributeName : String)
    (names : List V8Value) (i : Nat) (collections : List String) (collectionError : String) :
    getCollectionsLoop rt attributeName names i collections collectionError =
      ((getCollectionsLoop rt attributeName names i collections "").1,
        (getCollectionsLoop rt attributeName names i collections "").2.1,
        collectionError ++ (getCollectionsLoop rt attributeName names i collections "").2.2) := by
  induction names generalizing i collections with
  | nil => simp [getCollectionsLoop]
  | cons v rest ih =>
    by_cases hv : v.IsString = true
    · simp only [getCollectionsLoop, hv, Bool.not_true, Bool.false_eq_true, if_false]
      exact ih _ _
    · simp [getCollectionsLoop, hv]

theorem getCollections_error_append (rt : Runtime) (obj : V8Value) (collections : List String)
    (attributeName : String) (collectionError : String) :
    getCollections rt obj collections attributeName collectionError =
      ((getCollections rt obj collections attributeName "").1,
        (getCollections rt obj collections attributeName "").2.1,
        collectionError ++ (getCollections rt obj collections attributeName "").2.2) := by
  unfold getCollections
  split
  · split
    · exact getCollectionsLoop_error_append _ _ _ _ _ _
    · simp
    · simp
  · simp

theorem getCollections_spec (rt : Runtime) (obj : V8Value) (attributeName : String)
    (names : List String) (collectionError : String)
    (h : specBucket obj attributeName = some names) :
    getCollections rt obj [] attributeName collectionError = (true, names, collectionError) := by
  unfold specBucket at h
  unfold getCollections
  split at h
  · rename_i hhas
    rw [if_pos hhas]
    split at h
    · rename_i s hs
      simp at h
      simp [hs, TRI_ObjectToString, h]
    · rename_i elems hs
      split at h
      · rename_i hall
        simp at h
        simp [hs, getCollectionsLoop_strings rt attributeName elems 0 [] collectionError hall, h]
      · simp at h
    · simp at h
  · rename_i hhas
    rw [if_neg hhas]
    simp at h
    simp [h]

theorem getCollectionsLoop_ok_error (rt : Runtime) (attributeName : String)
    (names : List V8Value) (i : Nat) (collections : List String) (collectionError : String)
    (h : (getCollectionsLoop rt attributeName names i collections collectionError).1 = true) :
    (getCollectionsLoop rt attributeName names i collections collectionError).2.2 =
      collectionError := by
  induction names generalizing i collections with
  | nil => simp [getCollectionsLoop]
  | cons v rest ih =>
    by_cases hv : v.IsString = true
    · simp only [getCollectionsLoop, hv, Bool.not_true, Bool.false_eq_true, if_false] at h ⊢
      exact ih _ _ h
    · simp [getCollectionsLoop, hv] at h

theorem getCollections_ok_error (rt : Runtime) (obj : V8Value) (collections : List String)
    (attributeName : String) (collectionError : String)
    (h : (getCollections rt obj collections attributeName collectionError).1 = true) :
    (getCollections rt obj collections attributeName collectionError).2.2 = collectionError := by
  unfold getCollections at h ⊢
  split
  · rename_i hhas
    rw [if_pos hhas] at h
    split
    · rename_i names hg
      rw [hg] at h
      exact getCollectionsLoop_ok_error _ _ _ _ _ _ h
    · rfl
    · rename_i h1 h2
      split at h
      · exact (h1 _ ‹_›).elim
      · exact (h2 _ ‹_›).elim
      · simp at h
  · rfl

theorem classifyCollections_eq (rt : Runtime) (collections : V8Value) :
    classifyCollections rt collections =
      match firstBucketError rt collections with
      | some e =>
        .error ⟨TRI_ERROR_BAD_PARAMETER, "invalid collection definition for transaction: " ++ e⟩
      | none =>
        .ok ((getCollections rt collections [] "read" "").2.1,
          (getCollections rt collections [] "write" "").2.1,
          (getCollections rt collections [] "exclusive" "").2.1) := by
  have hr := getCollections_ok_error rt collections [] "read" ""
  have hw := getCollections_ok_error rt collections [] "write" ""
  unfold classifyCollections firstBucketError bucketError
  simp only []
  rw [getCollections_error_append rt collections [] "read"
    "invalid collection definition for transaction: "]
  cases h1 : (getCollections rt collections [] "read" "").1
  · simp
  · simp only [hr h1, String.append_empty]
    rw [getCollections_error_append rt collections [] "write"
      "invalid collection definition for transaction: "]
    cases h2 : (getCollections rt collections [] "write" "").1
    · simp
    · simp only [hw h2, String.append_empty]
      rw [getCollections_error_append rt collections [] "exclusive"
        "invalid collection definition for transaction: "]
      cases h3 : (getCollections rt collections [] "exclusive" "").1
      · simp
      · simp

theorem classifyCollections_error (rt : Runtime) (collections : V8Value) (rv : Result)
    (h : classifyCollections rt collections = .error rv) :
    ∃ e, rv = ⟨TRI_ERROR_BAD_PARAMETER,
      "invalid collection definition for transaction: " ++ e⟩ := by
  rw [classifyCollections_eq] at h
  split at h
  · rename_i e _
    exact ⟨e, by simpa using h.symm⟩
  · simp at h

theorem classifyCollections_spec (rt : Runtime) (collections : V8Value)
    (r w x : List String)
    (hr : specBucket collections "read" = some r)
    (hw : specBucket collections "write" = some w)
    (hx : specBucket collections "exclusive" = some x) :
    classifyCollections rt collections = .ok (r, w, x) := by
  unfold classifyCollections
  simp only [getCollections_spec rt collections _ _ _ hr,
    getCollections_spec rt collections _ _ _ hw, getCollections_spec rt collections _ _ _ hx]

/-! ## The request decoder as a whole -/

theorem decodeRequest_eq (rt : Runtime) (object : V8Value) :
    decodeRequest rt object =
      match readLockTimeout rt object rt.defaultOptions with
      | .error rv => .error rv
      | .ok o1 =>
        match readWaitForSync rt object o1 with
        | .error rv => .error rv
        | .ok o2 =>
          if object.Has "collections" = false ∨ (object.Get "collections").IsObject = false then
            .error ⟨TRI_ERROR_BAD_PARAMETER,
              "missing/invalid collections definition for transaction"⟩
          else
            match classifyCollections rt (object.Get "collections") with
            | .error rv => .error rv
            | .ok (r, w, x) =>
              if object.Has "action" = false then
                .error ⟨TRI_ERROR_BAD_PARAMETER,
                  "missing/invalid action definition for transaction"⟩
              else
                .ok ⟨readSizeOptions rt object (object.Get "collections") o2, r, w, x,
                  if object.Has "params" then object.Get "params" else .undefined,
                  if object.Has "embed" then TRI_ObjectToBoolean rt (object.Get "embed")
                  else false⟩ := by
  unfold decodeRequest
  cases readLockTimeout rt object rt.defaultOptions with
  | error rv => rfl
  | ok o1 =>
    dsimp only
    cases readWaitForSync rt object o1 with
    | error rv => rfl
    | ok o2 =>
      dsimp only
      by_cases hc : object.Has "collections" = true <;>
      by_cases ho : (object.Get "collections").IsObject = true
      · simp only [hc, ho, Handle.Cast]
        cases classifyCollections rt (object.Get "collections") with
        | error rv => simp
        | ok lists =>
          obtain ⟨r, w, x⟩ := lists
          by_cases ha : object.Has "action" = true
          · by_cases hp : object.Has "params" = true <;> simp [ha, hp]
          · simp [ha]
      · simp [hc, ho]
      · simp [hc, ho]
      · simp [hc, ho]

theorem readLockTimeout_invalid (rt : Runtime) (object : V8Value) (o : Options)
    (hh : object.Has "lockTimeout" = true)
    (hbad : (object.Get "lockTimeout").IsNumber = false ∨
      ∃ d, object.Get "lockTimeout" = .number d ∧ d.ltZero = true) :
    readLockTimeout rt object o = .error ⟨TRI_ERROR_BAD_PARAMETER, timeoutError⟩ := by
  unfold readLockTimeout
  rcases hbad with hn | ⟨d, hd, hlt⟩
  · cases hd : (TRI_ObjectToDouble rt (object.Get "lockTimeout")).ltZero <;>
    simp [hh, hn, hd, Result.fail, Result.ok, TRI_ERROR_BAD_PARAMETER, TRI_ERROR_NO_ERROR]
  · simp [hh, hd, V8Value.IsNumber, TRI_ObjectToDouble, hlt, Result.fail, Result.ok,
      TRI_ERROR_BAD_PARAMETER, TRI_ERROR_NO_ERROR]

theorem readLockTimeout_valid (rt : Runtime) (object : V8Value) (o : Options)
    (h : ¬ (object.Has "lockTimeout" = true ∧ ((object.Get "lockTimeout").IsNumber = false ∨
      ∃ d, object.Get "lockTimeout" = .number d ∧ d.ltZero = true))) :
    readLockTimeout rt object o =
      .ok (if object.Has "lockTimeout" = true then
        { o with lockTimeout := TRI_ObjectToDouble rt (object.Get "lockTimeout") } else o) := by
  unfold readLockTimeout
  by_cases hh : object.Has "lockTimeout" = true
  · simp only [hh, true_and, not_or, not_exists, not_and] at h
    obtain ⟨hn, hd⟩ := h
    cases hv : object.Get "lockTimeout" with
    | number d =>
      have := hd d hv
      simp [hh, V8Value.IsNumber, TRI_ObjectToDouble, this, Result.fail, Result.ok,
        Result.success]
    | _ => simp [hv, V8Value.IsNumber] at hn
  · simp [hh]

/-! ## The action resolver and the orchestrator -/

theorem resolveAction_ok (rt : Runtime) (object : V8Value) (st st1 : JSState) (action : Nat)
    (h : resolveAction rt object st = .ok (action, st1)) :
    st1.result = st.result ∧ st1.canContinue = st.canContinue ∧
    (st.tryCatch = none → st1.tryCatch = none) ∧
    (st1.trace = st.trace ∨ ∃ body, st1.trace = st.trace ++ [Event.newFunction body]) := by
  unfold resolveAction at h
  split at h
  · simp only [Except.ok.injEq, Prod.mk.injEq] at h
    obtain ⟨_, rfl⟩ := h
    exact ⟨rfl, rfl, id, Or.inl rfl⟩
  · rename_i source _
    cases hc : rt.newFunction "params"
        ("return (" ++ TRI_ObjectToString rt (.string source) ++ ")(params);") with
    | error caught => simp [hc] at h
    | ok fn =>
      cases ht : st.tryCatch with
      | some caught => simp [hc, ht] at h
      | none =>
        simp only [hc, ht, Except.ok.injEq, Prod.mk.injEq] at h
        obtain ⟨_, rfl⟩ := h
        exact ⟨rfl, rfl, fun _ => rfl, Or.inr ⟨_, rfl⟩⟩
  · simp at h

theorem resolveAction_error (rt : Runtime) (object : V8Value) (st st1 : JSState) (rv : Result)
    (h : resolveAction rt object st = .error (rv, st1)) :
    rv.errorNumber = TRI_ERROR_BAD_PARAMETER ∧
    ((st1.trace = st.trace ∧
        rv.errorMessage = "missing/invalid action definition for transaction") ∨
      ∃ body, st1.trace = st.trace ++ [Event.newFunction body]) := by
  unfold resolveAction at h
  split at h
  · simp at h
  · rename_i source _
    cases hc : rt.newFunction "params"
        ("return (" ++ TRI_ObjectToString rt (.string source) ++ ")(params);") with
    | error caught =>
      simp only [hc, Except.error.injEq, Prod.mk.injEq] at h
      obtain ⟨rfl, rfl⟩ := h
      exact ⟨rfl, Or.inr ⟨_, rfl⟩⟩
    | ok fn =>
      cases ht : st.tryCatch with
      | some caught =>
        simp only [hc, ht, Except.error.injEq, Prod.mk.injEq] at h
        obtain ⟨rfl, rfl⟩ := h
        exact ⟨rfl, Or.inr ⟨_, rfl⟩⟩
      | none => simp [hc, ht] at h
  · simp only [Except.error.injEq, Prod.mk.injEq] at h
    obtain ⟨rfl, rfl⟩ := h
    exact ⟨rfl, Or.inl ⟨rfl, rfl⟩⟩

theorem finishTransaction_trace (rt : Runtime) (rv : Result) (st : JSState) :
    (finishTransaction rt rv st).2.trace =
      st.trace ++ (if rv.fail then [] else [Event.trxCommit]) := by
  unfold finishTransaction
  split <;> simp

theorem invokeAction_trace (rt : Runtime) (action : Nat) (params : V8Value) (rv : Result)
    (st : JSState) :
    ∃ tail, (invokeAction rt action params rv st).2.trace =
        st.trace ++ Event.call action params :: tail ∧
      ∀ e ∈ tail, e = Event.trxAbort ∨ e = Event.trxCommit := by
  unfold invokeAction
  cases rt.call action params with
  | native ex =>
    refine ⟨if (nativeResult rt ex).fail then [] else [Event.trxCommit], ?_, ?_⟩
    · simp [finishTransaction_trace]
    · intro e he; split at he <;> simp_all
  | returned value =>
    cases ht : st.tryCatch with
    | none =>
      refine ⟨if rv.fail then [] else [Event.trxCommit], ?_, ?_⟩
      · simp [ht, finishTransaction_trace]
      · intro e he; split at he <;> simp_all
    | some caught =>
      refine ⟨Event.trxAbort :: (if (if (extractArangoError rt caught).1.2.1 then
        (extractArangoError rt caught).1.2.2 else rv).fail then [] else [Event.trxCommit]), ?_, ?_⟩
      · simp [ht, finishTransaction_trace]
      · intro e he
        simp only [List.mem_cons] at he
        rcases he with he | he
        · exact Or.inl he
        · split at he <;> simp_all
  | threw caught =>
    refine ⟨Event.trxAbort :: (if (if (extractArangoError rt caught).1.2.1 then
      (extractArangoError rt caught).1.2.2 else rv).fail then [] else [Event.trxCommit]), ?_, ?_⟩
    · simp [finishTransaction_trace]
    · intro e he
      simp only [List.mem_cons] at he
      rcases he with he | he
      · exact Or.inl he
      · split at he <;> simp_all

theorem prepareTransaction_decode_error (rt : Runtime) (arg : V8Value) (st : JSState)
    (db : Nat) (rv : Result) (hdb : rt.vocbase = some db)
    (h : decodeRequest rt arg = .error rv) :
    prepareTransaction rt arg st = .error (rv, { st with canContinue := true }) := by
  simp [prepareTransaction, hdb, h]

theorem prepareTransaction_ok (rt : Runtime) (arg : V8Value) (st st1 : JSState)
    (action : Nat) (params : V8Value) (rv : Result)
    (h : prepareTransaction rt arg st = .ok (action, params, rv, st1)) :
    ∃ request pre, decodeRequest rt arg = .ok request ∧ params = request.params ∧
      rv.fail = false ∧ (pre = [] ∨ ∃ body, pre = [Event.newFunction body]) ∧
      st1.trace = st.trace ++ pre ++
        [Event.trxConstruct request.embed request.readCollections request.writeCollections
          request.exclusiveCollections request.trxOptions, Event.trxBegin] ∧
      st1.result = st.result ∧ (st.tryCatch = none → st1.tryCatch = none) := by
  unfold prepareTransaction at h
  cases hdb : rt.vocbase with
  | none => simp [hdb] at h
  | some db =>
    cases hd : decodeRequest rt arg with
    | error e => simp [hdb, hd] at h
    | ok request =>
      cases hr : resolveAction rt arg { st with canContinue := true } with
      | error out => simp [hdb, hd, hr] at h
      | ok res =>
        obtain ⟨fn, st2⟩ := res
        obtain ⟨h1, _, h3, h4⟩ := resolveAction_ok rt arg _ st2 fn hr
        simp only [hdb, hd, hr, beginTransaction] at h
        split at h
        · simp at h
        · rename_i hf
          simp only [Except.ok.injEq, Prod.mk.injEq] at h
          obtain ⟨_, hp, hrv, hst⟩ := h
          subst hst
          subst hrv
          have hf2 : (rt.trxBegin (st2.trace ++
              [Event.trxConstruct request.embed request.readCollections
                request.writeCollections request.exclusiveCollections
                request.trxOptions])).fail = false := by simpa using hf
          rcases h4 with h4 | ⟨body, h4⟩
          · exact ⟨request, [], rfl, hp.symm, hf2, Or.inl rfl, by simp [h4], h1, h3⟩
          · exact ⟨request, [Event.newFunction body], rfl, hp.symm, hf2, Or.inr ⟨body, rfl⟩,
              by simp [h4], h1, h3⟩

theorem prepareTransaction_error (rt : Runtime) (arg : V8Value) (st st1 : JSState)
    (rv : Result) (h : prepareTransaction rt arg st = .error (rv, st1)) :
    (st1.trace = st.trace ∧
      ((rt.vocbase = none ∧ rv = Result.reset rt TRI_ERROR_ARANGO_DATABASE_NOT_FOUND) ∨
        decodeRequest rt arg = .error rv ∨
        rv = ⟨TRI_ERROR_BAD_PARAMETER, "missing/invalid action definition for transaction"⟩)) ∨
    (∃ body, st1.trace = st.trace ++ [Event.newFunction body]) ∨
    (∃ request pre, decodeRequest rt arg = .ok request ∧
      st1.trace = st.trace ++ pre ++
        [Event.trxConstruct request.embed request.readCollections request.writeCollections
          request.exclusiveCollections request.trxOptions, Event.trxBegin] ∧
      (pre = [] ∨ ∃ body, pre = [Event.newFunction body])) := by
  unfold prepareTransaction at h
  cases hdb : rt.vocbase with
  | none =>
    simp only [hdb, Except.error.injEq, Prod.mk.injEq] at h
    obtain ⟨rfl, rfl⟩ := h
    exact Or.inl ⟨rfl, Or.inl ⟨rfl, rfl⟩⟩
  | some db =>
    cases hd : decodeRequest rt arg with
    | error e =>
      simp only [hdb, hd, Except.error.injEq, Prod.mk.injEq] at h
      obtain ⟨rfl, rfl⟩ := h
      exact Or.inl ⟨rfl, Or.inr (Or.inl rfl)⟩
    | ok request =>
      cases hr : resolveAction rt arg { st with canContinue := true } with
      | error out =>
        obtain ⟨rv2, st2⟩ := out
        simp only [hdb, hd, hr, Except.error.injEq, Prod.mk.injEq] at h
        obtain ⟨rfl, rfl⟩ := h
        obtain ⟨hcode, hcase⟩ := resolveAction_error rt arg _ _ _ hr
        rcases hcase with ⟨ht, hm⟩ | ⟨body, hb⟩
        · refine Or.inl ⟨ht, Or.inr (Or.inr ?_)⟩
          cases rv2
          simp_all
        · exact Or.inr (Or.inl ⟨body, hb⟩)
      | ok res =>
        obtain ⟨fn, st2⟩ := res
        obtain ⟨_, _, _, h4⟩ := resolveAction_ok rt arg _ st2 fn hr
        simp only [hdb, hd, hr, beginTransaction] at h
        split at h
        · simp only [Except.error.injEq, Prod.mk.injEq] at h
          obtain ⟨_, rfl⟩ := h
          rcases h4 with h4 | ⟨body, h4⟩
          · exact Or.inr (Or.inr ⟨request, [], rfl, by simp [h4], Or.inl rfl⟩)
          · exact Or.inr (Or.inr ⟨request, [Event.newFunction body], rfl, by simp [h4],
              Or.inr ⟨body, rfl⟩⟩)
        · simp at h

theorem executeTransactionJS_trace (rt : Runtime) (arg : V8Value) (st : JSState) :
    ∃ suffix, (executeTransactionJS rt arg st).2.trace = st.trace ++ suffix ∧
      ((suffix = [] ∧ ((rt.vocbase = none ∧
          (executeTransactionJS rt arg st).1 =
            Result.reset rt TRI_ERROR_ARANGO_DATABASE_NOT_FOUND) ∨
        decodeRequest rt arg = .error (executeTransactionJS rt arg st).1 ∨
        (executeTransactionJS rt arg st).1 =
          ⟨TRI_ERROR_BAD_PARAMETER, "missing/invalid action definition for transaction"⟩)) ∨
      (∃ body, suffix = [Event.newFunction body]) ∨
      (∃ request pre tail, decodeRequest rt arg = .ok request ∧
        suffix = pre ++
          [Event.trxConstruct request.embed request.readCollections request.writeCollections
            request.exclusiveCollections request.trxOptions, Event.trxBegin] ++ tail ∧
        (pre = [] ∨ ∃ body, pre = [Event.newFunction body]) ∧
        (tail = [] ∨ ∃ action params rest, tail = Event.call action params :: rest ∧
          ∀ e ∈ rest, e = Event.trxAbort ∨ e = Event.trxCommit))) := by
  unfold executeTransactionJS
  cases hp : prepareTransaction rt arg st with
  | error out =>
    obtain ⟨rv, st1⟩ := out
    rcases prepareTransaction_error rt arg st st1 rv hp with ⟨ht, hc⟩ | ⟨body, hb⟩ |
      ⟨request, pre, hd, ht, hpre⟩
    · exact ⟨[], by simp [ht], Or.inl ⟨rfl, hc⟩⟩
    · exact ⟨[Event.newFunction body], hb, Or.inr (Or.inl ⟨body, rfl⟩)⟩
    · exact ⟨_, by simpa using ht, Or.inr (Or.inr ⟨request, pre, [], hd, by simp, hpre,
        Or.inl rfl⟩)⟩
  | ok res =>
    obtain ⟨action, params, rv, st1⟩ := res
    obtain ⟨request, pre, hd, _, _, hpre, ht, _, _⟩ :=
      prepareTransaction_ok rt arg st st1 action params rv hp
    obtain ⟨rest, hi, hrest⟩ := invokeAction_trace rt action params rv st1
    refine ⟨pre ++ [Event.trxConstruct request.embed request.readCollections
      request.writeCollections request.exclusiveCollections request.trxOptions,
      Event.trxBegin] ++ Event.call action params :: rest, ?_, Or.inr (Or.inr
        ⟨request, pre, _, hd, rfl, hpre, Or.inr ⟨action, params, rest, rfl, hrest⟩⟩)⟩
    simp only [hi, ht, List.append_assoc]

theorem executeTransactionJS_construct (rt : Runtime) (arg : V8Value) (st : JSState)
    (suffix : List Event) (embed : Bool) (r w x : List String) (o : Options)
    (htrace : (executeTransactionJS rt arg st).2.trace = st.trace ++ suffix)
    (hmem : Event.trxConstruct embed r w x o ∈ suffix) :
    ∃ request, decodeRequest rt arg = .ok request ∧ embed = request.embed ∧
      r = request.readCollections ∧ w = request.writeCollections ∧
      x = request.exclusiveCollections ∧ o = request.trxOptions := by
  obtain ⟨suffix2, h2, hc⟩ := executeTransactionJS_trace rt arg st
  have hs : suffix = suffix2 := List.append_cancel_left (htrace.symm.trans h2)
  subst hs
  rcases hc with ⟨rfl, _⟩ | ⟨body, rfl⟩ | ⟨request, pre, tail, hd, rfl, hpre, htail⟩
  · simp at hmem
  · simp at hmem
  · refine ⟨request, hd, ?_⟩
    simp only [List.mem_append, List.mem_cons, List.mem_singleton, List.not_mem_nil,
      or_false] at hmem
    rcases hmem with (hm | hm | hm) | hm
    · rcases hpre with rfl | ⟨body, rfl⟩ <;> simp at hm
    · simpa using hm
    · simp at hm
    · rcases htail with rfl | ⟨action, params, rest, rfl, hrest⟩
      · simp at hm
      · simp only [List.mem_cons] at hm
        rcases hm with hm | hm
        · simp at hm
        · rcases hrest _ hm with h | h <;> simp at h

/-! ## The end of the transaction -/

theorem prepareTransaction_ok_calls (rt : Runtime) (arg : V8Value) (st st1 : JSState)
    (action : Nat) (params : V8Value) (rv : Result)
    (h : prepareTransaction rt arg st = .ok (action, params, rv, st1)) :
    commitCalls st1.trace = commitCalls st.trace ∧ abortCalls st1.trace = abortCalls st.trace := by
  obtain ⟨request, pre, _, _, _, hpre, ht, _, _⟩ :=
    prepareTransaction_ok rt arg st st1 action params rv h
  rcases hpre with rfl | ⟨body, rfl⟩ <;> simp [ht, commitCalls, abortCalls, List.countP_append]

/-- C1 (as amended): for a request that passes validation and whose `begin()`
succeeds, entered with a fresh `TryCatch`: when the action returns normally,
`commit()` is called exactly once, after the call, and `abort()` is not called;
when the action leaves a pending script exception that `extractArangoError`
converts into a failing result, `abort()` is called exactly once, after the call,
and `commit()` is not called; when the action raises a native exception that maps
to a failing result, `executeTransactionJS` itself calls neither. -/
theorem executeTransactionJS_ends_transaction (rt : Runtime) (arg : V8Value)
    (st st1 : JSState) (action : Nat) (params : V8Value) (rv : Result)
    (hfresh : st.tryCatch = none)
    (hprep : prepareTransaction rt arg st = .ok (action, params, rv, st1)) :
    (∀ value, rt.call action params = .returned value →
      (executeTransactionJS rt arg st).2.trace =
        st1.trace ++ [Event.call action params, Event.trxCommit] ∧
      commitCalls (executeTransactionJS rt arg st).2.trace = commitCalls st.trace + 1 ∧
      abortCalls (executeTransactionJS rt arg st).2.trace = abortCalls st.trace) ∧
    (∀ caught, rt.call action params = .threw caught →
      (extractArangoError rt caught).1.2.1 = true →
      (extractArangoError rt caught).1.2.2.fail = true →
      (executeTransactionJS rt arg st).2.trace =
        st1.trace ++ [Event.call action params, Event.trxAbort] ∧
      commitCalls (executeTransactionJS rt arg st).2.trace = commitCalls st.trace ∧
      abortCalls (executeTransactionJS rt arg st).2.trace = abortCalls st.trace + 1) ∧
    (∀ ex, rt.call action params = .native ex → (nativeResult rt ex).fail = true →
      (executeTransactionJS rt arg st).2.trace = st1.trace ++ [Event.call action params] ∧
      commitCalls (executeTransactionJS rt arg st).2.trace = commitCalls st.trace ∧
      abortCalls (executeTransactionJS rt arg st).2.trace = abortCalls st.trace) := by
  obtain ⟨request, pre, _, _, hrv, _, _, _, htc⟩ :=
    prepareTransaction_ok rt arg st st1 action params rv hprep
  obtain ⟨hc, ha⟩ := prepareTransaction_ok_calls rt arg st st1 action params rv hprep
  have htc1 : st1.tryCatch = none := htc hfresh
  refine ⟨?_, ?_, ?_⟩
  · intro value hcall
    have ht : (executeTransactionJS rt arg st).2.trace =
        st1.trace ++ [Event.call action params, Event.trxCommit] := by
      simp [executeTransactionJS, hprep, invokeAction, hcall, htc1, finishTransaction, hrv]
    refine ⟨ht, ?_, ?_⟩
    · rw [ht]; simp [commitCalls, List.countP_append] at hc ⊢; omega
    · rw [ht]; simp [abortCalls, List.countP_append] at ha ⊢; omega
  · intro caught hcall hconv hfail
    have ht : (executeTransactionJS rt arg st).2.trace =
        st1.trace ++ [Event.call action params, Event.trxAbort] := by
      simp [executeTransactionJS, hprep, invokeAction, hcall, finishTransaction, hconv, hfail]
    refine ⟨ht, ?_, ?_⟩
    · rw [ht]; simp [commitCalls, List.countP_append] at hc ⊢; omega
    · rw [ht]; simp [abortCalls, List.countP_append] at ha ⊢; omega
  · intro ex hcall hfail
    have ht : (executeTransactionJS rt arg st).2.trace =
        st1.trace ++ [Event.call action params] := by
      simp [executeTransactionJS, hprep, invokeAction, hcall, finishTransaction, hfail]
    refine ⟨ht, ?_, ?_⟩
    · rw [ht]; simp [commitCalls, List.countP_append] at hc ⊢; omega
    · rw [ht]; simp [abortCalls, List.countP_append] at ha ⊢; omega

/-- C1 (witness): the amended statement on the request `requestRead`, whose action
returns normally: one `commit()` and no `abort()`. -/
theorem executeTransactionJS_ends_transaction_witness :
    freshJS.tryCatch = none ∧
    commitCalls (executeTransactionJS (sampleRuntime fun _ _ => .returned .undefined)
      requestRead freshJS).2.trace = 1 ∧
    abortCalls (executeTransactionJS (sampleRuntime fun _ _ => .returned .undefined)
      requestRead freshJS).2.trace = 0 :=
  have h := (executeTransactionJS_ends_transaction
    (sampleRuntime fun _ _ => .returned .undefined) requestRead freshJS
    ⟨none, none, true, [Event.trxConstruct false ["c"] [] [] sampleOptions, Event.trxBegin]⟩
    7 .undefined Result.success rfl rfl).1 .undefined rfl
  ⟨rfl, h.2.1, h.2.2⟩

/-- C1 (counterexample): on the valid request `requestRead`, whose `begin()`
succeeds, an action that throws a string makes `executeTransactionJS` call
`abort()` and then `commit()`, and an action that raises an allocation failure
makes it call neither. -/
theorem executeTransactionJS_not_exactly_one :
    prepareTransaction (sampleRuntime fun _ _ => .threw thrownString) requestRead freshJS =
      .ok (7, .undefined, Result.success,
        ⟨none, none, true, [Event.trxConstruct false ["c"] [] [] sampleOptions,
          Event.trxBegin]⟩) ∧
    (executeTransactionJS (sampleRuntime fun _ _ => .threw thrownString) requestRead
      freshJS).2.trace =
      [Event.trxConstruct false ["c"] [] [] sampleOptions, Event.trxBegin,
        Event.call 7 .undefined, Event.trxAbort, Event.trxCommit] ∧
    (executeTransactionJS (sampleRuntime fun _ _ => .native .badAlloc) requestRead
      freshJS).2.trace =
      [Event.trxConstruct false ["c"] [] [] sampleOptions, Event.trxBegin,
        Event.call 7 .undefined] :=
  ⟨rfl, rfl, rfl⟩

theorem decodeRequest_error_code (rt : Runtime) (object : V8Value) (rv : Result)
    (h : decodeRequest rt object = .error rv) :
    rv.errorNumber = TRI_ERROR_BAD_PARAMETER := by
  rw [decodeRequest_eq] at h
  cases h1 : readLockTimeout rt object rt.defaultOptions with
  | error e =>
    rw [h1] at h
    simp only [Except.error.injEq] at h
    rw [← h, readLockTimeout_error rt object _ e h1]
  | ok o1 =>
    rw [h1] at h
    dsimp only at h
    cases h2 : readWaitForSync rt object o1 with
    | error e =>
      rw [h2] at h
      simp only [Except.error.injEq] at h
      rw [← h, readWaitForSync_error rt object _ e h2]
    | ok o2 =>
      rw [h2] at h
      dsimp only at h
      split at h
      · simp only [Except.error.injEq] at h
        rw [← h]
      · cases h3 : classifyCollections rt (object.Get "collections") with
        | error e =>
          rw [h3] at h
          simp only [Except.error.injEq] at h
          obtain ⟨msg, hm⟩ := classifyCollections_error rt _ e h3
          rw [← h, hm]
        | ok lists =>
          obtain ⟨r, w, x⟩ := lists
          rw [h3] at h
          dsimp only at h
          split at h
          · simp only [Except.error.injEq] at h
            rw [← h]
          · simp at h

theorem executeTransactionJS_decode_error (rt : Runtime) (arg : V8Value) (st : JSState)
    (db : Nat) (rv : Result) (hdb : rt.vocbase = some db)
    (h : decodeRequest rt arg = .error rv) :
    executeTransactionJS rt arg st = (rv, { st with canContinue := true }) := by
  simp [executeTransactionJS, prepareTransaction_decode_error rt arg st db rv hdb h]

/-- C5 (as amended): for a request object in which `collections` is missing or is
not an object, `executeTransactionJS`, run where a database is present, returns a
`TRI_ERROR_BAD_PARAMETER` validation error and constructs or begins no
transaction; when the lock timeout and `waitForSync` are acceptable the message
is the one of line 219. -/
theorem executeTransactionJS_collections_missing (rt : Runtime) (arg : V8Value)
    (st : JSState) (db : Nat) (hdb : rt.vocbase = some db)
    (hcoll : arg.Has "collections" = false ∨ (arg.Get "collections").IsObject = false) :
    (executeTransactionJS rt arg st).1.errorNumber = TRI_ERROR_BAD_PARAMETER ∧
    (executeTransactionJS rt arg st).2.trace = st.trace ∧
    (∀ o1 o2, readLockTimeout rt arg rt.defaultOptions = .ok o1 →
      readWaitForSync rt arg o1 = .ok o2 →
      (executeTransactionJS rt arg st).1 =
        ⟨TRI_ERROR_BAD_PARAMETER, "missing/invalid collections definition for transaction"⟩) := by
  have hd : ∃ rv, decodeRequest rt arg = .error rv ∧
      (∀ o1 o2, readLockTimeout rt arg rt.defaultOptions = .ok o1 →
        readWaitForSync rt arg o1 = .ok o2 →
        rv = ⟨TRI_ERROR_BAD_PARAMETER,
          "missing/invalid collections definition for transaction"⟩) := by
    rw [decodeRequest_eq]
    cases h1 : readLockTimeout rt arg rt.defaultOptions with
    | error e => exact ⟨e, rfl, fun _ _ h => by simp at h⟩
    | ok o1 =>
      dsimp only
      cases h2 : readWaitForSync rt arg o1 with
      | error e =>
        refine ⟨e, rfl, fun a b h h' => ?_⟩
        simp only [Except.ok.injEq] at h
        subst h
        rw [h2] at h'
        simp at h'
      | ok o2 =>
        dsimp only
        rw [if_pos hcoll]
        exact ⟨_, rfl, fun _ _ _ _ => rfl⟩
  obtain ⟨rv, hd, hmsg⟩ := hd
  rw [executeTransactionJS_decode_error rt arg st db rv hdb hd]
  exact ⟨decodeRequest_error_code rt arg rv hd, rfl, hmsg⟩

/-- C5 (witness): a request without `collections`. -/
theorem executeTransactionJS_collections_missing_witness :
    (executeTransactionJS (sampleRuntime fun _ _ => .returned .undefined)
      (.object [("action", .function 7 [])]) freshJS).1.errorNumber =
      TRI_ERROR_BAD_PARAMETER ∧
    (executeTransactionJS (sampleRuntime fun _ _ => .returned .undefined)
      (.object [("action", .function 7 [])]) freshJS).2.trace = [] :=
  have h := executeTransactionJS_collections_missing
    (sampleRuntime fun _ _ => .returned .undefined) (.object [("action", .function 7 [])])
    freshJS 1 rfl (Or.inl rfl)
  ⟨h.1, h.2.1⟩

/-- C5 (counterexample): a request whose `collections` is the empty object is not
rejected: a transaction over three empty buckets is constructed, begun and
committed, and the result is a success. -/
theorem executeTransactionJS_empty_collections_accepted :
    requestEmptyCollections.Get "collections" = .object [] ∧
    (executeTransactionJS (sampleRuntime fun _ _ => .returned .undefined)
      requestEmptyCollections freshJS).1 = Result.success ∧
    (executeTransactionJS (sampleRuntime fun _ _ => .returned .undefined)
      requestEmptyCollections freshJS).2.trace =
      [Event.trxConstruct false [] [] [] sampleOptions, Event.trxBegin,
        Event.call 7 .undefined, Event.trxCommit] :=
  ⟨rfl, rfl, rfl⟩

/-- C6 (as amended): for a request that fails validation inside the request
decoder, `executeTransaction`, run where a context is available, the port type can
be set and a database is present, returns the validation error after it has
acquired the execution context: `enterContext` is called once, before the
validation, the context is released by `exitContext`, no transaction is
constructed, and the output builder is left as it was. -/
theorem executeTransaction_validation_error (rt : Runtime) (slice : VPackSlice)
    (portType : String) (s : ServerState) (db : Nat) (rv : Result)
    (hslice : slice.isObject = true) (hctx : rt.contextAvailable = true)
    (hport : rt.setPortType portType = true) (hdb : rt.vocbase = some db)
    (hdec : decodeRequest rt (rt.vpackToV8 slice) = .error rv) :
    executeTransaction rt slice portType s =
      some (rv, { s with
        currentRequest := .undefined
        trace := s.trace ++ [Event.enterContext, Event.setCurrentRequest (portRequest portType),
          Event.resetCurrentRequest, Event.exitContext] }) := by
  have hfail : rv.fail = true := by
    simp [Result.fail, Result.ok, decodeRequest_error_code rt _ rv hdec,
      TRI_ERROR_BAD_PARAMETER, TRI_ERROR_NO_ERROR]
  simp [executeTransaction, enterAndExecute, hslice, hctx, hport,
    executeTransactionJS_decode_error rt _ _ db rv hdb hdec, hfail, portRequest]

/-- C6 (witness): the lock timeout `-1`. -/
theorem executeTransaction_validation_error_witness :
    executeTransaction (sampleRuntime fun _ _ => .returned .undefined) sliceNegativeTimeout
      "tcp" freshServer =
      some (⟨TRI_ERROR_BAD_PARAMETER, timeoutError⟩,
        ⟨[], false, .undefined,
          [Event.enterContext, Event.setCurrentRequest (portRequest "tcp"),
            Event.resetCurrentRequest, Event.exitContext]⟩) :=
  executeTransaction_validation_error (sampleRuntime fun _ _ => .returned .undefined)
    sliceNegativeTimeout "tcp" freshServer 1 ⟨TRI_ERROR_BAD_PARAMETER, timeoutError⟩
    rfl rfl rfl rfl rfl

/-- C6 (counterexample): with the lock timeout `-1` the validation error is
returned, and `enterContext` has been called on that run. -/
theorem executeTransaction_enters_context_first :
    (executeTransaction (sampleRuntime fun _ _ => .returned .undefined) sliceNegativeTimeout
      "tcp" freshServer).map (fun out => (out.1, out.2.trace)) =
      some (⟨TRI_ERROR_BAD_PARAMETER, "<lockTimeout> must be a valid numeric value"⟩,
        [Event.enterContext, Event.setCurrentRequest (portRequest "tcp"),
          Event.resetCurrentRequest, Event.exitContext]) :=
  rfl

/-! ## The lock timeout -/

theorem classify_message_ne_timeoutError (e : String) :
    "invalid collection definition for transaction: " ++ e ≠ timeoutError := by
  intro h
  have h2 := congrArg String.data h
  rw [String.data_append] at h2
  have h3 := congrArg List.head? h2
  simp [timeoutError] at h3

theorem decodeRequest_error_not_timeout (rt : Runtime) (object : V8Value) (o1 : Options)
    (rv : Result) (h1 : readLockTimeout rt object rt.defaultOptions = .ok o1)
    (h : decodeRequest rt object = .error rv) : rv.errorMessage ≠ timeoutError := by
  rw [decodeRequest_eq, h1] at h
  dsimp only at h
  cases h2 : readWaitForSync rt object o1 with
  | error e =>
    rw [h2] at h
    simp only [Except.error.injEq] at h
    rw [← h, readWaitForSync_error rt object _ e h2]
    decide
  | ok o2 =>
    rw [h2] at h
    dsimp only at h
    split at h
    · simp only [Except.error.injEq] at h
      rw [← h]
      decide
    · cases h3 : classifyCollections rt (object.Get "collections") with
      | error e =>
        rw [h3] at h
        simp only [Except.error.injEq] at h
        obtain ⟨msg, hm⟩ := classifyCollections_error rt _ e h3
        rw [← h, hm]
        exact classify_message_ne_timeoutError msg
      | ok lists =>
        obtain ⟨r, w, x⟩ := lists
        rw [h3] at h
        dsimp only at h
        split at h
        · simp only [Except.error.injEq] at h
          rw [← h]
          decide
        · simp at h

theorem decodeRequest_ok_lockTimeout (rt : Runtime) (object : V8Value) (request : Request)
    (h : decodeRequest rt object = .ok request) :
    ∃ o1, readLockTimeout rt object rt.defaultOptions = .ok o1 ∧
      request.trxOptions.lockTimeout = o1.lockTimeout := by
  rw [decodeRequest_eq] at h
  cases h1 : readLockTimeout rt object rt.defaultOptions with
  | error e => simp [h1] at h
  | ok o1 =>
    refine ⟨o1, rfl, ?_⟩
    rw [h1] at h
    dsimp only at h
    cases h2 : readWaitForSync rt object o1 with
    | error e => simp [h2] at h
    | ok o2 =>
      have ho2 : o2.lockTimeout = o1.lockTimeout := by
        unfold readWaitForSync at h2
        split at h2
        · split at h2
          · simp at h2
          · simp only [Except.ok.injEq] at h2
            rw [← h2]
        · simp only [Except.ok.injEq] at h2
          rw [← h2]
      rw [h2] at h
      dsimp only at h
      split at h
      · simp at h
      · cases h3 : classifyCollections rt (object.Get "collections") with
        | error e => simp [h3] at h
        | ok lists =>
          obtain ⟨r, w, x⟩ := lists
          rw [h3] at h
          dsimp only at h
          split at h
          · simp at h
          · simp only [Except.ok.injEq] at h
            rw [← h, ← ho2]
            simp only [readSizeOptions]
            repeat' split
            all_goals rfl

/-- C7: where a database is present, `executeTransactionJS` rejects a request
(returns without having called any collaborator) with `TRI_ERROR_BAD_PARAMETER`
and the message of line 183 if and only if the attribute `lockTimeout` is present
and is either no number or a negative number, whatever the other attributes are;
and an accepted number is the lock timeout of the options with which a
transaction is constructed. -/
theorem executeTransactionJS_lockTimeout (rt : Runtime) (arg : V8Value) (st : JSState)
    (db : Nat) (hdb : rt.vocbase = some db) :
    (((executeTransactionJS rt arg st).1 = ⟨TRI_ERROR_BAD_PARAMETER, timeoutError⟩ ∧
        (executeTransactionJS rt arg st).2.trace = st.trace) ↔
      (arg.Has "lockTimeout" = true ∧ ((arg.Get "lockTimeout").IsNumber = false ∨
        ∃ d, arg.Get "lockTimeout" = .number d ∧ d.ltZero = true))) ∧
    (∀ d, arg.Has "lockTimeout" = true → arg.Get "lockTimeout" = .number d →
      d.ltZero = false →
      ∀ suffix embed r w x o, (executeTransactionJS rt arg st).2.trace = st.trace ++ suffix →
        Event.trxConstruct embed r w x o ∈ suffix → o.lockTimeout = d) := by
  constructor
  · constructor
    · rintro ⟨hres, htr⟩
      by_contra hcond
      have hv := readLockTimeout_valid rt arg rt.defaultOptions hcond
      obtain ⟨suffix, hs, hc⟩ := executeTransactionJS_trace rt arg st
      have hnil : suffix = [] := by
        have := htr.symm.trans hs
        simpa using this
      subst hnil
      rcases hc with ⟨_, hc⟩ | ⟨body, hb⟩ | ⟨request, pre, tail, _, hb, _, _⟩
      · rcases hc with ⟨hn, _⟩ | hd | hm
        · rw [hdb] at hn; simp at hn
        · exact decodeRequest_error_not_timeout rt arg _ _ hv hd (by rw [hres])
        · rw [hres] at hm
          revert hm
          decide
      · simp at hb
      · simp at hb
    · rintro ⟨hh, hbad⟩
      have hd : decodeRequest rt arg = .error ⟨TRI_ERROR_BAD_PARAMETER, timeoutError⟩ := by
        rw [decodeRequest_eq, readLockTimeout_invalid rt arg _ hh hbad]
      rw [executeTransactionJS_decode_error rt arg st db _ hdb hd]
      exact ⟨rfl, rfl⟩
  · intro d hh hn hneg suffix embed r w x o htr hmem
    obtain ⟨request, hd, _, _, _, _, ho⟩ :=
      executeTransactionJS_construct rt arg st suffix embed r w x o htr hmem
    obtain ⟨o1, h1, hl⟩ := decodeRequest_ok_lockTimeout rt arg request hd
    have hcond : ¬ (arg.Has "lockTimeout" = true ∧ ((arg.Get "lockTimeout").IsNumber = false ∨
        ∃ d, arg.Get "lockTimeout" = .number d ∧ d.ltZero = true)) := by
      rintro ⟨_, h | ⟨d2, h2, h3⟩⟩
      · simp [hn, V8Value.IsNumber] at h
      · rw [hn] at h2
        simp only [V8Value.number.injEq] at h2
        subst h2
        rw [hneg] at h3
        simp at h3
    rw [readLockTimeout_valid rt arg rt.defaultOptions hcond] at h1
    simp only [Except.ok.injEq] at h1
    rw [ho, hl, ← h1]
    simp [hh, hn, TRI_ObjectToDouble]

/-- C7 (witness): the lock timeout `-1` is rejected before anything is called. -/
theorem executeTransactionJS_lockTimeout_witness :
    (executeTransactionJS (sampleRuntime fun _ _ => .returned .undefined)
      requestNegativeTimeout freshJS).1 = ⟨TRI_ERROR_BAD_PARAMETER, timeoutError⟩ ∧
    (executeTransactionJS (sampleRuntime fun _ _ => .returned .undefined)
      requestNegativeTimeout freshJS).2.trace = freshJS.trace :=
  (executeTransactionJS_lockTimeout (sampleRuntime fun _ _ => .returned .undefined)
    requestNegativeTimeout freshJS 1 rfl).1.2 ⟨rfl, Or.inr ⟨.finite (-1) 0, rfl, rfl⟩⟩

/-! ## Classification inside `executeTransactionJS` -/

theorem executeTransactionJS_firstBucketError (rt : Runtime) (arg : V8Value) (st : JSState)
    (db : Nat) (o1 o2 : Options) (e : String) (hdb : rt.vocbase = some db)
    (h1 : readLockTimeout rt arg rt.defaultOptions = .ok o1)
    (h2 : readWaitForSync rt arg o1 = .ok o2)
    (hhas : arg.Has "collections" = true)
    (hobj : (arg.Get "collections").IsObject = true)
    (he : firstBucketError rt (arg.Get "collections") = some e) :
    executeTransactionJS rt arg st =
      (⟨TRI_ERROR_BAD_PARAMETER, "invalid collection definition for transaction: " ++ e⟩,
        { st with canContinue := true }) := by
  apply executeTransactionJS_decode_error rt arg st db _ hdb
  rw [decodeRequest_eq, h1]
  dsimp only
  rw [h2]
  dsimp only
  rw [if_neg (by simp [hhas, hobj]), classifyCollections_eq, he]

theorem decodeRequest_ok_collections (rt : Runtime) (object : V8Value) (request : Request)
    (h : decodeRequest rt object = .ok request) :
    classifyCollections rt (object.Get "collections") =
      .ok (request.readCollections, request.writeCollections,
        request.exclusiveCollections) := by
  rw [decodeRequest_eq] at h
  cases h1 : readLockTimeout rt object rt.defaultOptions with
  | error e => simp [h1] at h
  | ok o1 =>
    rw [h1] at h
    dsimp only at h
    cases h2 : readWaitForSync rt object o1 with
    | error e => simp [h2] at h
    | ok o2 =>
      rw [h2] at h
      dsimp only at h
      split at h
      · simp at h
      · cases h3 : classifyCollections rt (object.Get "collections") with
        | error e => simp [h3] at h
        | ok lists =>
          obtain ⟨r, w, x⟩ := lists
          rw [h3] at h
          dsimp only at h
          split at h
          · simp at h
          · simp only [Except.ok.injEq] at h
            rw [← h]

theorem bucketError_of_spec (rt : Runtime) (collections : V8Value) (attributeName : String)
    (h : (specBucket collections attributeName).isSome = true) :
    bucketError rt collections attributeName = none := by
  obtain ⟨names, hn⟩ := Option.isSome_iff_exists.mp h
  simp [bucketError, getCollections_spec rt collections attributeName names "" hn]

theorem bucketError_not_string (rt : Runtime) (collections : V8Value)
    (attributeName : String) (names : List V8Value) (i : Nat) (bad : V8Value)
    (hhas : collections.Has attributeName = true)
    (harr : collections.Get attributeName = .array names)
    (hbad : names[i]? = some bad) (hns : bad.IsString = false)
    (hpre : ∀ j, j < i → ∀ v, names[j]? = some v → v.IsString = true) :
    bucketError rt collections attributeName =
      some (" Collection name #" ++ toString i ++ " in array \x27" ++ attributeName ++
        "\x27 is not a string") := by
  obtain ⟨hf, hm⟩ := getCollectionsLoop_not_string rt attributeName names 0 i bad [] ""
    hbad hns hpre
  simp only [Nat.zero_add] at hm
  simp [bucketError, getCollections, hhas, harr, hf, hm]

/-- C8 (as amended): collection classification is short-circuiting.  For a request
that reaches the classification, the message of the single
`TRI_ERROR_BAD_PARAMETER` result is the fixed text of line 289 followed by the
description of the first malformed bucket in the order `read`, `write`,
`exclusive`, and by nothing else; no transaction is constructed. -/
theorem executeTransactionJS_first_bucket_only (rt : Runtime) (arg : V8Value)
    (st : JSState) (db : Nat) (o1 o2 : Options) (hdb : rt.vocbase = some db)
    (h1 : readLockTimeout rt arg rt.defaultOptions = .ok o1)
    (h2 : readWaitForSync rt arg o1 = .ok o2)
    (hhas : arg.Has "collections" = true)
    (hobj : (arg.Get "collections").IsObject = true) :
    (∀ e, bucketError rt (arg.Get "collections") "read" = some e →
      executeTransactionJS rt arg st =
        (⟨TRI_ERROR_BAD_PARAMETER, "invalid collection definition for transaction: " ++ e⟩,
          { st with canContinue := true })) ∧
    (∀ e, bucketError rt (arg.Get "collections") "read" = none →
      bucketError rt (arg.Get "collections") "write" = some e →
      executeTransactionJS rt arg st =
        (⟨TRI_ERROR_BAD_PARAMETER, "invalid collection definition for transaction: " ++ e⟩,
          { st with canContinue := true })) ∧
    (∀ e, bucketError rt (arg.Get "collections") "read" = none →
      bucketError rt (arg.Get "collections") "write" = none →
      bucketError rt (arg.Get "collections") "exclusive" = some e →
      executeTransactionJS rt arg st =
        (⟨TRI_ERROR_BAD_PARAMETER, "invalid collection definition for transaction: " ++ e⟩,
          { st with canContinue := true })) := by
  refine ⟨fun e hr => ?_, fun e hr hw => ?_, fun e hr hw hx => ?_⟩
  · exact executeTransactionJS_firstBucketError rt arg st db o1 o2 e hdb h1 h2 hhas hobj
      (by simp [firstBucketError, hr])
  · exact executeTransactionJS_firstBucketError rt arg st db o1 o2 e hdb h1 h2 hhas hobj
      (by simp [firstBucketError, hr, hw])
  · exact executeTransactionJS_firstBucketError rt arg st db o1 o2 e hdb h1 h2 hhas hobj
      (by simp [firstBucketError, hr, hw, hx])

/-- C8 (witness): `read` and `write` are both numbers; only `read` is described. -/
theorem executeTransactionJS_first_bucket_only_witness :
    (executeTransactionJS (sampleRuntime fun _ _ => .returned .undefined)
      requestTwoMalformed freshJS).1 =
      ⟨TRI_ERROR_BAD_PARAMETER,
        "invalid collection definition for transaction:  There is no array in \x27read\x27"⟩ :=
  congrArg Prod.fst
    ((executeTransactionJS_first_bucket_only (sampleRuntime fun _ _ => .returned .undefined)
      requestTwoMalformed freshJS 1 sampleOptions sampleOptions rfl rfl rfl rfl rfl).1
      " There is no array in \x27read\x27" rfl)

/-- C8 (counterexample): both `read` and `write` are malformed, each with a
description of its own, and the message of the result describes `read` only. -/
theorem executeTransactionJS_reports_one_bucket :
    bucketError (sampleRuntime fun _ _ => .returned .undefined)
      (requestTwoMalformed.Get "collections") "read" =
      some " There is no array in \x27read\x27" ∧
    bucketError (sampleRuntime fun _ _ => .returned .undefined)
      (requestTwoMalformed.Get "collections") "write" =
      some " There is no array in \x27write\x27" ∧
    (executeTransactionJS (sampleRuntime fun _ _ => .returned .undefined)
      requestTwoMalformed freshJS).1 =
      ⟨TRI_ERROR_BAD_PARAMETER,
        "invalid collection definition for transaction:  There is no array in \x27read\x27"⟩ :=
  ⟨rfl, rfl, rfl⟩

/-- C9: for a `collections` object in which each of `read`, `write` and `exclusive`
is absent, a single string or an array of strings, classification succeeds, and a
transaction that `executeTransactionJS` constructs is constructed with, for each
bucket, the names the specification gives: none for an absent attribute, the one
string, or the elements of the array in their order with duplicates kept. -/
theorem executeTransactionJS_buckets (rt : Runtime) (arg : V8Value) (st : JSState)
    (r w x : List String)
    (hr : specBucket (arg.Get "collections") "read" = some r)
    (hw : specBucket (arg.Get "collections") "write" = some w)
    (hx : specBucket (arg.Get "collections") "exclusive" = some x) :
    classifyCollections rt (arg.Get "collections") = .ok (r, w, x) ∧
    (∀ suffix embed r2 w2 x2 o,
      (executeTransactionJS rt arg st).2.trace = st.trace ++ suffix →
      Event.trxConstruct embed r2 w2 x2 o ∈ suffix → r2 = r ∧ w2 = w ∧ x2 = x) := by
  have hc := classifyCollections_spec rt (arg.Get "collections") r w x hr hw hx
  refine ⟨hc, ?_⟩
  intro suffix embed r2 w2 x2 o htr hmem
  obtain ⟨request, hd, _, h2, h3, h4, _⟩ :=
    executeTransactionJS_construct rt arg st suffix embed r2 w2 x2 o htr hmem
  have := decodeRequest_ok_collections rt arg request hd
  rw [hc] at this
  simp only [Except.ok.injEq, Prod.mk.injEq] at this
  obtain ⟨e1, e2, e3⟩ := this
  exact ⟨h2.trans e1.symm, h3.trans e2.symm, h4.trans e3.symm⟩

/-- C9 (witness): `read` is the string `a`, `write` is the array `b, b, c`,
`exclusive` is absent; the transaction is constructed with exactly these names. -/
theorem executeTransactionJS_buckets_witness :
    classifyCollections (sampleRuntime fun _ _ => .returned .undefined)
      (requestBuckets.Get "collections") = .ok (["a"], ["b", "b", "c"], []) ∧
    (executeTransactionJS (sampleRuntime fun _ _ => .returned .undefined) requestBuckets
      freshJS).2.trace =
      [Event.trxConstruct false ["a"] ["b", "b", "c"] [] sampleOptions, Event.trxBegin,
        Event.call 7 .undefined, Event.trxCommit] :=
  ⟨(executeTransactionJS_buckets (sampleRuntime fun _ _ => .returned .undefined)
    requestBuckets freshJS ["a"] ["b", "b", "c"] [] rfl rfl rfl).1, rfl⟩

/-- C10: for a request that reaches the classification and whose first malformed
bucket, in the order `read`, `write`, `exclusive`, is an array whose first
non-string element is at index `i`, `executeTransactionJS` returns
`TRI_ERROR_BAD_PARAMETER` with a message that names the index `i` and the attribute
name of that bucket, and it returns before any transaction is constructed, so that
no name of that bucket reaches a transaction. -/
theorem executeTransactionJS_first_non_string (rt : Runtime) (arg : V8Value)
    (st : JSState) (db : Nat) (o1 o2 : Options) (attributeName : String)
    (names : List V8Value) (i : Nat) (bad : V8Value) (hdb : rt.vocbase = some db)
    (h1 : readLockTimeout rt arg rt.defaultOptions = .ok o1)
    (h2 : readWaitForSync rt arg o1 = .ok o2)
    (hhas : arg.Has "collections" = true)
    (hobj : (arg.Get "collections").IsObject = true)
    (hfirst : attributeName = "read" ∨
      (attributeName = "write" ∧ (specBucket (arg.Get "collections") "read").isSome = true) ∨
      (attributeName = "exclusive" ∧
        (specBucket (arg.Get "collections") "read").isSome = true ∧
        (specBucket (arg.Get "collections") "write").isSome = true))
    (hattr : (arg.Get "collections").Has attributeName = true)
    (harr : (arg.Get "collections").Get attributeName = .array names)
    (hbad : names[i]? = some bad) (hns : bad.IsString = false)
    (hpre : ∀ j, j < i → ∀ v, names[j]? = some v → v.IsString = true) :
    (executeTransactionJS rt arg st).1 =
      ⟨TRI_ERROR_BAD_PARAMETER,
        "invalid collection definition for transaction: " ++
          (" Collection name #" ++ toString i ++ " in array \x27" ++ attributeName ++
            "\x27 is not a string")⟩ ∧
    (executeTransactionJS rt arg st).2.trace = st.trace := by
  have hb := bucketError_not_string rt (arg.Get "collections") attributeName names i bad
    hattr harr hbad hns hpre
  have hf : firstBucketError rt (arg.Get "collections") =
      some (" Collection name #" ++ toString i ++ " in array \x27" ++ attributeName ++
        "\x27 is not a string") := by
    rcases hfirst with rfl | ⟨rfl, hr⟩ | ⟨rfl, hr, hw⟩
    · simp only [firstBucketError, hb]
    · simp only [firstBucketError, bucketError_of_spec rt _ _ hr, hb]
    · simp only [firstBucketError, bucketError_of_spec rt _ _ hr,
        bucketError_of_spec rt _ _ hw, hb]
  rw [executeTransactionJS_firstBucketError rt arg st db o1 o2 _ hdb h1 h2 hhas hobj hf]
  exact ⟨rfl, rfl⟩

/-- C10 (witness): the array `write` holds `b`, `c`, `null`, `3`; the message names
index `2` and `write`, and nothing is constructed. -/
theorem executeTransactionJS_first_non_string_witness :
    (executeTransactionJS (sampleRuntime fun _ _ => .returned .undefined) requestBadName
      freshJS).1 =
      ⟨TRI_ERROR_BAD_PARAMETER,
        "invalid collection definition for transaction:  Collection name #2 in array \x27write\x27 is not a string"⟩ ∧
    (executeTransactionJS (sampleRuntime fun _ _ => .returned .undefined) requestBadName
      freshJS).2.trace = [] :=
  executeTransactionJS_first_non_string (sampleRuntime fun _ _ => .returned .undefined)
    requestBadName freshJS 1 sampleOptions sampleOptions "write"
    [.string "b", .string "c", .null, .number (.finite 3 0)] 2 .null rfl rfl rfl rfl rfl
    (Or.inr (Or.inl ⟨rfl, rfl⟩)) rfl rfl rfl rfl
    (fun j hj v hv => by
      match j, hj, hv with
      | 0, _, hv => cases hv; rfl
      | 1, _, hv => cases hv; rfl)

/-! ## The state that `executeTransactionJS` leaves behind -/

theorem resolveAction_error_state (rt : Runtime) (object : V8Value) (st st1 : JSState)
    (rv : Result) (h : resolveAction rt object st = .error (rv, st1)) :
    st1.result = st.result ∧ st1.canContinue = st.canContinue ∧
    (st.tryCatch = none → st1.tryCatch = none) := by
  unfold resolveAction at h
  split at h
  · simp at h
  · rename_i source _
    cases hc : rt.newFunction "params"
        ("return (" ++ TRI_ObjectToString rt (.string source) ++ ")(params);") with
    | error caught =>
      simp only [hc, Except.error.injEq, Prod.mk.injEq] at h
      obtain ⟨_, rfl⟩ := h
      exact ⟨rfl, rfl, fun _ => rfl⟩
    | ok fn =>
      cases ht : st.tryCatch with
      | some caught =>
        simp only [hc, ht, Except.error.injEq, Prod.mk.injEq] at h
        obtain ⟨_, rfl⟩ := h
        exact ⟨rfl, rfl, fun _ => rfl⟩
      | none => simp [hc, ht] at h
  · simp only [Except.error.injEq, Prod.mk.injEq] at h
    obtain ⟨_, rfl⟩ := h
    exact ⟨rfl, rfl, id⟩

theorem prepareTransaction_error_state (rt : Runtime) (arg : V8Value) (st st1 : JSState)
    (rv : Result) (h : prepareTransaction rt arg st = .error (rv, st1)) :
    st1.result = st.result ∧ st1.canContinue = true ∧
    (st.tryCatch = none → st1.tryCatch = none) := by
  unfold prepareTransaction at h
  cases hdb : rt.vocbase with
  | none =>
    simp only [hdb, Except.error.injEq, Prod.mk.injEq] at h
    obtain ⟨_, rfl⟩ := h
    exact ⟨rfl, rfl, id⟩
  | some db =>
    cases hd : decodeRequest rt arg with
    | error e =>
      simp only [hdb, hd, Except.error.injEq, Prod.mk.injEq] at h
      obtain ⟨_, rfl⟩ := h
      exact ⟨rfl, rfl, id⟩
    | ok request =>
      cases hr : resolveAction rt arg { st with canContinue := true } with
      | error out =>
        obtain ⟨rv2, st2⟩ := out
        simp only [hdb, hd, hr, Except.error.injEq, Prod.mk.injEq] at h
        obtain ⟨_, rfl⟩ := h
        exact resolveAction_error_state rt arg _ _ _ hr
      | ok res =>
        obtain ⟨fn, st2⟩ := res
        obtain ⟨h1, h2, h3, _⟩ := resolveAction_ok rt arg _ st2 fn hr
        simp only [hdb, hd, hr, beginTransaction] at h
        split at h
        · simp only [Except.error.injEq, Prod.mk.injEq] at h
          obtain ⟨_, rfl⟩ := h
          exact ⟨h1, h2, h3⟩
        · simp at h

theorem prepareTransaction_ok_canContinue (rt : Runtime) (arg : V8Value) (st st1 : JSState)
    (action : Nat) (params : V8Value) (rv : Result)
    (h : prepareTransaction rt arg st = .ok (action, params, rv, st1)) :
    st1.canContinue = true := by
  unfold prepareTransaction at h
  cases hdb : rt.vocbase with
  | none => simp [hdb] at h
  | some db =>
    cases hd : decodeRequest rt arg with
    | error e => simp [hdb, hd] at h
    | ok request =>
      cases hr : resolveAction rt arg { st with canContinue := true } with
      | error out => simp [hdb, hd, hr] at h
      | ok res =>
        obtain ⟨fn, st2⟩ := res
        obtain ⟨_, h2, _, _⟩ := resolveAction_ok rt arg _ st2 fn hr
        simp only [hdb, hd, hr, beginTransaction] at h
        split at h
        · simp at h
        · simp only [Except.ok.injEq, Prod.mk.injEq] at h
          obtain ⟨_, _, _, rfl⟩ := h
          exact h2

theorem finishTransaction_state (rt : Runtime) (rv : Result) (st : JSState) :
    (finishTransaction rt rv st).2.result = st.result ∧
    (finishTransaction rt rv st).2.tryCatch = st.tryCatch ∧
    (finishTransaction rt rv st).2.canContinue = st.canContinue := by
  unfold finishTransaction
  split <;> exact ⟨rfl, rfl, rfl⟩

theorem invokeAction_state (rt : Runtime) (action : Nat) (params : V8Value) (rv : Result)
    (st : JSState) (hfresh : st.tryCatch = none) :
    (invokeAction rt action params rv st).2.result =
      (match rt.call action params with
        | .returned value => some value
        | .threw _ => none
        | .native _ => st.result) ∧
    (invokeAction rt action params rv st).2.canContinue =
      (match rt.call action params with
        | .threw caught => caught.canContinue
        | _ => st.canContinue) := by
  unfold invokeAction
  cases rt.call action params with
  | native ex => simp [finishTransaction_state]
  | returned value => simp [hfresh, finishTransaction_state]
  | threw caught =>
    simp only [finishTransaction_state]
    constructor
    · trivial
    · unfold extractArangoError
      simp only []
      repeat' split
      all_goals rfl

theorem executeTransactionJS_result (rt : Runtime) (arg : V8Value) (st : JSState)
    (value : V8Value) (hfresh : st.tryCatch = none) (hres : st.result = none)
    (h : (executeTransactionJS rt arg st).2.result = some value) :
    ∃ action params rv st1, prepareTransaction rt arg st = .ok (action, params, rv, st1) ∧
      rt.call action params = .returned value := by
  unfold executeTransactionJS at h
  cases hp : prepareTransaction rt arg st with
  | error out =>
    obtain ⟨rv, st1⟩ := out
    rw [hp] at h
    have := (prepareTransaction_error_state rt arg st st1 rv hp).1
    simp only [] at h
    rw [this, hres] at h
    simp at h
  | ok res =>
    obtain ⟨action, params, rv, st1⟩ := res
    rw [hp] at h
    simp only [] at h
    obtain ⟨_, _, _, _, _, _, _, hr1, htc⟩ :=
      prepareTransaction_ok rt arg st st1 action params rv hp
    rw [(invokeAction_state rt action params rv st1 (htc hfresh)).1] at h
    refine ⟨action, params, rv, st1, rfl, ?_⟩
    cases hc : rt.call action params with
    | returned v =>
      rw [hc] at h
      simp only [Option.some.injEq] at h
      rw [h]
    | threw c => rw [hc] at h; simp at h
    | native ex => rw [hc] at h; simp [hr1, hres] at h

theorem executeTransactionJS_canContinue (rt : Runtime) (arg : V8Value) (st : JSState)
    (hfresh : st.tryCatch = none) :
    (executeTransactionJS rt arg st).2.canContinue = false ↔
      ∃ action params rv st1 caught,
        prepareTransaction rt arg st = .ok (action, params, rv, st1) ∧
        rt.call action params = .threw caught ∧ caught.canContinue = false := by
  unfold executeTransactionJS
  cases hp : prepareTransaction rt arg st with
  | error out =>
    obtain ⟨rv, st1⟩ := out
    have := (prepareTransaction_error_state rt arg st st1 rv hp).2.1
    simp [this]
  | ok res =>
    obtain ⟨action, params, rv, st1⟩ := res
    obtain ⟨_, _, _, _, _, _, _, _, htc⟩ :=
      prepareTransaction_ok rt arg st st1 action params rv hp
    have hcc := prepareTransaction_ok_canContinue rt arg st st1 action params rv hp
    simp only []
    rw [(invokeAction_state rt action params rv st1 (htc hfresh)).2]
    constructor
    · intro h
      cases hc : rt.call action params with
      | returned v => rw [hc] at h; simp [hcc] at h
      | native ex => rw [hc] at h; simp [hcc] at h
      | threw c =>
        rw [hc] at h
        exact ⟨action, params, rv, st1, c, rfl, hc, h⟩
    · rintro ⟨a, p, r, s1, c, he, hc, hcan⟩
      simp only [Except.ok.injEq, Prod.mk.injEq] at he
      obtain ⟨rfl, rfl, rfl, rfl⟩ := he
      rw [hc]
      exact hcan

theorem executeTransactionJS_events (rt : Runtime) (arg : V8Value) (st : JSState) :
    ∃ suffix, (executeTransactionJS rt arg st).2.trace = st.trace ++ suffix ∧
      ∀ e ∈ suffix, e ≠ Event.enterContext ∧ e ≠ Event.exitContext ∧
        e ≠ Event.resetCurrentRequest ∧ ∀ request, e ≠ Event.setCurrentRequest request := by
  obtain ⟨suffix, hs, hc⟩ := executeTransactionJS_trace rt arg st
  refine ⟨suffix, hs, ?_⟩
  intro e he
  rcases hc with ⟨rfl, _⟩ | ⟨body, rfl⟩ | ⟨request, pre, tail, _, rfl, hpre, htail⟩
  · simp at he
  · simp only [List.mem_singleton] at he
    subst he
    simp
  · simp only [List.mem_append, List.mem_cons, List.mem_singleton, List.not_mem_nil,
      or_false] at he
    rcases he with (he | he | he) | he
    · rcases hpre with rfl | ⟨body, rfl⟩
      · simp at he
      · simp only [List.mem_singleton] at he
        subst he
        simp
    · subst he; simp
    · subst he; simp
    · rcases htail with rfl | ⟨action, params, rest, rfl, hrest⟩
      · simp at he
      · simp only [List.mem_cons] at he
        rcases he with he | he
        · subst he; simp
        · rcases hrest _ he with h | h <;> subst h <;> simp

/-! ## `executeTransaction` around `executeTransactionJS` -/

theorem enterAndExecute_eq (rt : Runtime) (slice : VPackSlice) (portType : String)
    (s : ServerState) (rv0 : Result) (js : JSState)
    (hslice : slice.isObject = true) (hctx : rt.contextAvailable = true)
    (hport : rt.setPortType portType = true)
    (hjs : executeTransactionJS rt (rt.vpackToV8 slice)
      ⟨none, none, true,
        s.trace ++ [Event.enterContext, Event.setCurrentRequest (portRequest portType)]⟩ =
      (rv0, js)) :
    enterAndExecute rt slice portType s =
      .ok (rv0, js,
        ⟨s.builder, if js.canContinue then s.canceled else true, .undefined,
          js.trace ++ [Event.resetCurrentRequest]⟩) := by
  simp only [portRequest] at hjs
  unfold enterAndExecute
  simp only [hslice, hctx, hport, Bool.not_true, Bool.false_eq_true, if_false,
    List.append_assoc, List.cons_append, List.nil_append, hjs]
  cases hcc : js.canContinue <;> simp

theorem executeTransaction_eq (rt : Runtime) (slice : VPackSlice) (portType : String)
    (s : ServerState) (rv0 : Result) (js : JSState)
    (hslice : slice.isObject = true) (hctx : rt.contextAvailable = true)
    (hport : rt.setPortType portType = true)
    (hjs : executeTransactionJS rt (rt.vpackToV8 slice)
      ⟨none, none, true,
        s.trace ++ [Event.enterContext, Event.setCurrentRequest (portRequest portType)]⟩ =
      (rv0, js)) :
    executeTransaction rt slice portType s =
      match js.tryCatch with
      | some caught =>
        if caught.canContinue then
          some (⟨TRI_ERROR_INTERNAL, caught.message⟩,
            ⟨s.builder, if js.canContinue then s.canceled else true, .undefined,
              js.trace ++ [Event.resetCurrentRequest, Event.exitContext]⟩)
        else none
      | none =>
        if rv0.fail then
          some (rv0,
            ⟨s.builder, if js.canContinue then s.canceled else true, .undefined,
              js.trace ++ [Event.resetCurrentRequest, Event.exitContext]⟩)
        else
          match js.result with
          | none => none
          | some result =>
            some (rv0,
              ⟨s.builder ++ [if result.IsUndefined then VPackSlice.noneSlice
                  else rt.v8ToVPack result],
                if js.canContinue then s.canceled else true, .undefined,
                js.trace ++ [Event.resetCurrentRequest, Event.exitContext]⟩) := by
  unfold executeTransaction
  rw [enterAndExecute_eq rt slice portType s rv0 js hslice hctx hport hjs]
  simp only []
  cases htc : js.tryCatch with
  | some caught =>
    cases hcan : caught.canContinue <;>
      simp [Caught.Message, hcan, Result.fail, Result.ok, TRI_ERROR_INTERNAL,
        TRI_ERROR_NO_ERROR]
  | none =>
    simp only []
    cases hf : rv0.fail
    · cases hr : js.result with
      | none => simp
      | some result => cases hu : result.IsUndefined <;> simp [hu]
    · simp

theorem executeTransaction_not_object (rt : Runtime) (slice : VPackSlice)
    (portType : String) (s : ServerState) (h : slice.isObject = false) :
    executeTransaction rt slice portType s =
      some (⟨TRI_ERROR_BAD_PARAMETER, "body is not an object"⟩, s) := by
  simp [executeTransaction, enterAndExecute, h]

theorem executeTransaction_no_context (rt : Runtime) (slice : VPackSlice)
    (portType : String) (s : ServerState) (hslice : slice.isObject = true)
    (h : rt.contextAvailable = false) :
    executeTransaction rt slice portType s =
      some (⟨TRI_ERROR_INTERNAL, "unable to get v8 context"⟩,
        { s with trace := s.trace ++ [Event.enterContext] }) := by
  simp [executeTransaction, enterAndExecute, hslice, h]

theorem executeTransaction_no_portType (rt : Runtime) (slice : VPackSlice)
    (portType : String) (s : ServerState) (hslice : slice.isObject = true)
    (hctx : rt.contextAvailable = true) (h : rt.setPortType portType = false) :
    executeTransaction rt slice portType s =
      some (⟨TRI_ERROR_INTERNAL, "could not set porttype"⟩,
        { s with trace := s.trace ++ [Event.enterContext, Event.exitContext] }) := by
  simp [executeTransaction, enterAndExecute, hslice, hctx, h]

/-! ## The action -/

theorem resolveAction_invalid (rt : Runtime) (object : V8Value) (st : JSState)
    (hf : (object.Get "action").IsFunction = false)
    (hs : (object.Get "action").IsString = false) :
    resolveAction rt object st =
      .error (⟨TRI_ERROR_BAD_PARAMETER, "missing/invalid action definition for transaction"⟩,
        st) := by
  unfold resolveAction
  cases hg : object.Get "action" <;> simp_all [V8Value.IsFunction, V8Value.IsString]

theorem resolveAction_ok_action (rt : Runtime) (object : V8Value) (st st1 : JSState)
    (action : Nat) (h : resolveAction rt object st = .ok (action, st1)) :
    (∃ props, object.Get "action" = .function action props) ∨
    (∃ source, object.Get "action" = .string source ∧
      rt.newFunction "params" ("return (" ++ source ++ ")(params);") = .ok action ∧
      st.tryCatch = none) := by
  unfold resolveAction at h
  split at h
  · rename_i fn props hg
    simp only [Except.ok.injEq, Prod.mk.injEq] at h
    exact Or.inl ⟨props, by rw [hg, h.1]⟩
  · rename_i source hg
    cases hc : rt.newFunction "params"
        ("return (" ++ TRI_ObjectToString rt (.string source) ++ ")(params);") with
    | error caught => simp [hc] at h
    | ok fn =>
      cases ht : st.tryCatch with
      | some caught => simp [hc, ht] at h
      | none =>
        simp only [hc, ht, Except.ok.injEq, Prod.mk.injEq] at h
        refine Or.inr ⟨source, hg, ?_, rfl⟩
        rw [← h.1]
        exact hc
  · simp at h

theorem decodeRequest_ok_action (rt : Runtime) (object : V8Value) (request : Request)
    (h : decodeRequest rt object = .ok request) :
    object.Has "action" = true ∧
    request.params = (if object.Has "params" then object.Get "params" else .undefined) := by
  rw [decodeRequest_eq] at h
  cases h1 : readLockTimeout rt object rt.defaultOptions with
  | error e => simp [h1] at h
  | ok o1 =>
    rw [h1] at h
    dsimp only at h
    cases h2 : readWaitForSync rt object o1 with
    | error e => simp [h2] at h
    | ok o2 =>
      rw [h2] at h
      dsimp only at h
      split at h
      · simp at h
      · cases h3 : classifyCollections rt (object.Get "collections") with
        | error e => simp [h3] at h
        | ok lists =>
          obtain ⟨r, w, x⟩ := lists
          rw [h3] at h
          dsimp only at h
          split at h
          · simp at h
          · rename_i ha
            simp only [Except.ok.injEq] at h
            refine ⟨by simpa using ha, ?_⟩
            rw [← h]

theorem executeTransactionJS_begin_resolved (rt : Runtime) (arg : V8Value) (st : JSState)
    (suffix : List Event)
    (htrace : (executeTransactionJS rt arg st).2.trace = st.trace ++ suffix)
    (hmem : Event.trxBegin ∈ suffix) :
    ∃ request action st2, decodeRequest rt arg = .ok request ∧
      resolveAction rt arg { st with canContinue := true } = .ok (action, st2) := by
  cases hdb : rt.vocbase with
  | none =>
    simp [executeTransactionJS, prepareTransaction, hdb] at htrace
    subst htrace
    simp at hmem
  | some db =>
    cases hd : decodeRequest rt arg with
    | error e =>
      rw [executeTransactionJS_decode_error rt arg st db e hdb hd] at htrace
      simp at htrace
      subst htrace
      simp at hmem
    | ok request =>
      cases hr : resolveAction rt arg { st with canContinue := true } with
      | ok res => exact ⟨request, res.1, res.2, rfl, rfl⟩
      | error out =>
        obtain ⟨rv2, st2⟩ := out
        obtain ⟨_, hcase⟩ := resolveAction_error rt arg _ _ _ hr
        simp only [executeTransactionJS, prepareTransaction, hdb, hd, hr] at htrace
        rcases hcase with ⟨ht, _⟩ | ⟨body, hb⟩
        · rw [ht] at htrace
          simp at htrace
          subst htrace
          simp at hmem
        · rw [hb] at htrace
          simp at htrace
          subst htrace
          simp at hmem

/-- C11: a request that reaches the action check and whose `action` attribute is
missing, or is present but is neither a function nor a string, is answered with
`TRI_ERROR_BAD_PARAMETER` and the message of line 303, and neither `begin()` nor
the action is called (nothing at all is called).  Conversely, whenever `begin()` is
called, the request carried an `action` that is a function, or a string that the
`Function` constructor compiled with no exception pending. -/
theorem executeTransactionJS_action_invalid (rt : Runtime) (arg : V8Value) (st : JSState)
    (db : Nat) (o1 o2 : Options) (lists : List String × List String × List String)
    (hdb : rt.vocbase = some db)
    (h1 : readLockTimeout rt arg rt.defaultOptions = .ok o1)
    (h2 : readWaitForSync rt arg o1 = .ok o2)
    (hhas : arg.Has "collections" = true)
    (hobj : (arg.Get "collections").IsObject = true)
    (hcl : classifyCollections rt (arg.Get "collections") = .ok lists)
    (hact : arg.Has "action" = false ∨
      ((arg.Get "action").IsFunction = false ∧ (arg.Get "action").IsString = false)) :
    executeTransactionJS rt arg st =
      (⟨TRI_ERROR_BAD_PARAMETER, "missing/invalid action definition for transaction"⟩,
        { st with canContinue := true }) ∧
    (∀ (arg2 : V8Value) (st2 : JSState) (suffix : List Event),
      (executeTransactionJS rt arg2 st2).2.trace = st2.trace ++ suffix →
      Event.trxBegin ∈ suffix →
      arg2.Has "action" = true ∧
      ((∃ fn props, arg2.Get "action" = .function fn props) ∨
        (∃ source fn, arg2.Get "action" = .string source ∧
          rt.newFunction "params" ("return (" ++ source ++ ")(params);") = .ok fn ∧
          st2.tryCatch = none))) := by
  constructor
  · obtain ⟨r, w, x⟩ := lists
    by_cases ha : arg.Has "action" = true
    · rcases hact with hact | ⟨hf, hs⟩
      · rw [ha] at hact; simp at hact
      · have hd : ∃ request, decodeRequest rt arg = .ok request := by
          rw [decodeRequest_eq, h1]
          dsimp only
          rw [h2]
          dsimp only
          rw [if_neg (by simp [hhas, hobj]), hcl]
          dsimp only
          rw [if_neg (by simp [ha])]
          exact ⟨_, rfl⟩
        obtain ⟨request, hd⟩ := hd
        simp [executeTransactionJS, prepareTransaction, hdb, hd,
          resolveAction_invalid rt arg _ hf hs]
    · have ha2 : arg.Has "action" = false := by simpa using ha
      apply executeTransactionJS_decode_error rt arg st db _ hdb
      rw [decodeRequest_eq, h1]
      dsimp only
      rw [h2]
      dsimp only
      rw [if_neg (by simp [hhas, hobj]), hcl]
      dsimp only
      rw [if_pos ha2]
  · intro arg2 st2 suffix htr hmem
    obtain ⟨request, action, st3, hd, hr⟩ :=
      executeTransactionJS_begin_resolved rt arg2 st2 suffix htr hmem
    refine ⟨(decodeRequest_ok_action rt arg2 request hd).1, ?_⟩
    rcases resolveAction_ok_action rt arg2 _ st3 action hr with ⟨props, hp⟩ |
      ⟨source, hs, hc, ht⟩
    · exact Or.inl ⟨action, props, hp⟩
    · exact Or.inr ⟨source, action, hs, hc, ht⟩

/-- C11 (witness): a request without `action`. -/
theorem executeTransactionJS_action_invalid_witness :
    executeTransactionJS (sampleRuntime fun _ _ => .returned .undefined)
      (.object [("collections", .object [("read", .string "c")])]) freshJS =
      (⟨TRI_ERROR_BAD_PARAMETER, "missing/invalid action definition for transaction"⟩,
        freshJS) :=
  (executeTransactionJS_action_invalid (sampleRuntime fun _ _ => .returned .undefined)
    (.object [("collections", .object [("read", .string "c")])]) freshJS 1 sampleOptions
    sampleOptions (["c"], [], []) rfl rfl rfl rfl rfl rfl (Or.inl rfl)).1

/-- C12: when the `action` of a request that passed the decoder is a string and
the `Function` constructor leaves an exception pending on the body
`return (<source>)(params);`, `executeTransactionJS` returns
`TRI_ERROR_BAD_PARAMETER` whose message is the text of line 303 followed by
` - `, the message of the runtime, ` - ` and the stack trace, with the pending
exception reset and `begin()` not called; and `executeTransaction` returns this
very result, not `TRI_ERROR_INTERNAL`. -/
theorem executeTransactionJS_compile_error (rt : Runtime) (arg : V8Value) (st : JSState)
    (db : Nat) (request : Request) (source : String) (caught : Caught)
    (hdb : rt.vocbase = some db) (hd : decodeRequest rt arg = .ok request)
    (hsrc : arg.Get "action" = .string source)
    (hc : rt.newFunction "params" ("return (" ++ source ++ ")(params);") = .error caught) :
    executeTransactionJS rt arg st =
      (⟨TRI_ERROR_BAD_PARAMETER,
          "missing/invalid action definition for transaction" ++ " - " ++ caught.message ++
            " - " ++ caught.stackTrace⟩,
        { result := st.result, tryCatch := none, canContinue := true,
          trace := st.trace ++ [Event.newFunction ("return (" ++ source ++ ")(params);")] }) ∧
    (∀ (slice : VPackSlice) (portType : String) (s : ServerState),
      rt.vpackToV8 slice = arg → slice.isObject = true → rt.contextAvailable = true →
      rt.setPortType portType = true →
      executeTransaction rt slice portType s =
        some (⟨TRI_ERROR_BAD_PARAMETER,
            "missing/invalid action definition for transaction" ++ " - " ++ caught.message ++
              " - " ++ caught.stackTrace⟩,
          ⟨s.builder, s.canceled, .undefined,
            s.trace ++ [Event.enterContext, Event.setCurrentRequest (portRequest portType),
              Event.newFunction ("return (" ++ source ++ ")(params);"),
              Event.resetCurrentRequest, Event.exitContext]⟩)) := by
  have key : ∀ st : JSState, executeTransactionJS rt arg st =
      (⟨TRI_ERROR_BAD_PARAMETER,
          "missing/invalid action definition for transaction" ++ " - " ++ caught.message ++
            " - " ++ caught.stackTrace⟩,
        { result := st.result, tryCatch := none, canContinue := true,
          trace := st.trace ++ [Event.newFunction ("return (" ++ source ++ ")(params);")] }) := by
    intro st
    simp [executeTransactionJS, prepareTransaction, hdb, hd, resolveAction, hsrc,
      TRI_ObjectToString, hc]
  refine ⟨key st, ?_⟩
  intro slice portType s harg hslice hctx hport
  subst harg
  rw [executeTransaction_eq rt slice portType s _ _ hslice hctx hport (key _)]
  simp [Result.fail, Result.ok, TRI_ERROR_BAD_PARAMETER, TRI_ERROR_NO_ERROR]

/-- C12 (witness): source text that the `Function` constructor rejects. -/
theorem executeTransactionJS_compile_error_witness :
    executeTransaction sampleRuntimeNoCompile sliceNoCompile "tcp" freshServer =
      some (⟨TRI_ERROR_BAD_PARAMETER,
          "missing/invalid action definition for transaction - Uncaught SyntaxError: Unexpected token - SyntaxError: Unexpected token"⟩,
        ⟨[], false, .undefined,
          [Event.enterContext, Event.setCurrentRequest (portRequest "tcp"),
            Event.newFunction "return (function ()(params);",
            Event.resetCurrentRequest, Event.exitContext]⟩) :=
  (executeTransactionJS_compile_error sampleRuntimeNoCompile
    (sampleDecode sliceNoCompile) freshJS 1
    ⟨sampleOptions, ["c"], [], [], .undefined, false⟩ "function (" thrownSyntaxError
    rfl rfl rfl rfl).2 sliceNoCompile "tcp" freshServer rfl rfl rfl rfl

/-- C13: when the request is validated, the action is resolved and `begin()`
returns a failure, `executeTransactionJS` returns exactly that failure, and after
`begin()` nothing is called: the action is not invoked, and neither `commit()` nor
`abort()` is called. -/
theorem executeTransactionJS_begin_failure (rt : Runtime) (arg : V8Value) (st st2 : JSState)
    (db : Nat) (request : Request) (action : Nat)
    (hdb : rt.vocbase = some db) (hd : decodeRequest rt arg = .ok request)
    (hr : resolveAction rt arg { st with canContinue := true } = .ok (action, st2))
    (hfail : (rt.trxBegin (st2.trace ++
      [Event.trxConstruct request.embed request.readCollections request.writeCollections
        request.exclusiveCollections request.trxOptions])).fail = true) :
    executeTransactionJS rt arg st =
      (rt.trxBegin (st2.trace ++
          [Event.trxConstruct request.embed request.readCollections request.writeCollections
            request.exclusiveCollections request.trxOptions]),
        { st2 with trace := st2.trace ++
          [Event.trxConstruct request.embed request.readCollections request.writeCollections
            request.exclusiveCollections request.trxOptions, Event.trxBegin] }) ∧
    actionCalls (executeTransactionJS rt arg st).2.trace = actionCalls st.trace ∧
    commitCalls (executeTransactionJS rt arg st).2.trace = commitCalls st.trace ∧
    abortCalls (executeTransactionJS rt arg st).2.trace = abortCalls st.trace := by
  have key : executeTransactionJS rt arg st =
      (rt.trxBegin (st2.trace ++
          [Event.trxConstruct request.embed request.readCollections request.writeCollections
            request.exclusiveCollections request.trxOptions]),
        { st2 with trace := st2.trace ++
          [Event.trxConstruct request.embed request.readCollections request.writeCollections
            request.exclusiveCollections request.trxOptions, Event.trxBegin] }) := by
    simp [executeTransactionJS, prepareTransaction, hdb, hd, hr, beginTransaction, hfail]
  obtain ⟨_, _, _, h4⟩ := resolveAction_ok rt arg _ st2 action hr
  refine ⟨key, ?_, ?_, ?_⟩ <;> rw [key] <;>
    rcases h4 with h4 | ⟨body, h4⟩ <;>
    simp [h4, actionCalls, commitCalls, abortCalls, List.countP_append]

/-- C13 (witness): a `begin()` that fails with `collection not found`. -/
theorem executeTransactionJS_begin_failure_witness :
    executeTransactionJS sampleRuntimeBeginFails requestRead freshJS =
      (⟨1203, "collection not found"⟩,
        ⟨none, none, true,
          [Event.trxConstruct false ["c"] [] [] sampleOptions, Event.trxBegin]⟩) :=
  (executeTransactionJS_begin_failure sampleRuntimeBeginFails requestRead freshJS freshJS 1
    ⟨sampleOptions, ["c"], [], [], .undefined, false⟩ 7 rfl rfl rfl rfl).1

/-- C14: when the request is validated, `begin()` succeeds and the action returns
normally with no exception pending, the action is invoked exactly once, on the
value of `params` (`undefined` when the request has no such attribute), `commit()`
is called exactly once, after the call, `abort()` is not called, and the result
of `executeTransactionJS` is the result of `commit()`. -/
theorem executeTransactionJS_commit (rt : Runtime) (arg : V8Value) (st st1 : JSState)
    (action : Nat) (params value : V8Value) (rv : Result)
    (hfresh : st.tryCatch = none)
    (hprep : prepareTransaction rt arg st = .ok (action, params, rv, st1))
    (hcall : rt.call action params = .returned value) :
    executeTransactionJS rt arg st =
      (rt.trxCommit (st1.trace ++ [Event.call action params]),
        { result := some value, tryCatch := none, canContinue := true,
          trace := st1.trace ++ [Event.call action params, Event.trxCommit] }) ∧
    params = (if arg.Has "params" then arg.Get "params" else .undefined) ∧
    actionCalls (executeTransactionJS rt arg st).2.trace = actionCalls st.trace + 1 ∧
    commitCalls (executeTransactionJS rt arg st).2.trace = commitCalls st.trace + 1 ∧
    abortCalls (executeTransactionJS rt arg st).2.trace = abortCalls st.trace := by
  obtain ⟨request, pre, hd, hp, hrv, hpre, ht, _, htc⟩ :=
    prepareTransaction_ok rt arg st st1 action params rv hprep
  have hcc := prepareTransaction_ok_canContinue rt arg st st1 action params rv hprep
  have htc1 : st1.tryCatch = none := htc hfresh
  have key : executeTransactionJS rt arg st =
      (rt.trxCommit (st1.trace ++ [Event.call action params]),
        { result := some value, tryCatch := none, canContinue := true,
          trace := st1.trace ++ [Event.call action params, Event.trxCommit] }) := by
    simp [executeTransactionJS, hprep, invokeAction, hcall, htc1, finishTransaction, hrv, hcc]
  refine ⟨key, ?_, ?_, ?_, ?_⟩
  · rw [hp]
    exact (decodeRequest_ok_action rt arg request hd).2
  all_goals
    rw [key]
    rcases hpre with rfl | ⟨body, rfl⟩ <;>
    simp [ht, actionCalls, commitCalls, abortCalls, List.countP_append]

/-- C14 (witness): a request with parameters; the action is called on them once
and `commit()` follows. -/
theorem executeTransactionJS_commit_witness :
    executeTransactionJS (sampleRuntime fun _ _ => .returned (.number (.finite 42 0)))
      requestParams freshJS =
      (Result.success,
        ⟨some (.number (.finite 42 0)), none, true,
          [Event.trxConstruct false ["c"] [] [] sampleOptions, Event.trxBegin,
            Event.call 7 (.array [.number (.finite 1 0)]), Event.trxCommit]⟩) :=
  (executeTransactionJS_commit (sampleRuntime fun _ _ => .returned (.number (.finite 42 0)))
    requestParams freshJS
    ⟨none, none, true, [Event.trxConstruct false ["c"] [] [] sampleOptions, Event.trxBegin]⟩
    7 (.array [.number (.finite 1 0)]) (.number (.finite 42 0)) Result.success
    rfl rfl rfl).1

/-! ## The output builder -/

/-- C15: `executeTransaction` leaves the output builder as it was when it returns
a failure, and adds exactly one value to it when it returns a success: the none
marker when the value the action returned is `undefined`, and the encoding of
that value otherwise.  A run whose action returns normally and whose `commit()`
succeeds does return such a success. -/
theorem executeTransaction_builder (rt : Runtime) (slice : VPackSlice) (portType : String)
    (s : ServerState) :
    (∀ rv s1, executeTransaction rt slice portType s = some (rv, s1) → rv.fail = true →
      s1.builder = s.builder) ∧
    (∀ rv s1, executeTransaction rt slice portType s = some (rv, s1) → rv.fail = false →
      ∃ action params value, rt.call action params = .returned value ∧
        s1.builder = s.builder ++
          [if value.IsUndefined then VPackSlice.noneSlice else rt.v8ToVPack value]) ∧
    (∀ action params rv0 st1 value, slice.isObject = true → rt.contextAvailable = true →
      rt.setPortType portType = true →
      prepareTransaction rt (rt.vpackToV8 slice)
        ⟨none, none, true,
          s.trace ++ [Event.enterContext, Event.setCurrentRequest (portRequest portType)]⟩ =
        .ok (action, params, rv0, st1) →
      rt.call action params = .returned value →
      (rt.trxCommit (st1.trace ++ [Event.call action params])).fail = false →
      executeTransaction rt slice portType s =
        some (rt.trxCommit (st1.trace ++ [Event.call action params]),
          ⟨s.builder ++ [if value.IsUndefined then VPackSlice.noneSlice
              else rt.v8ToVPack value],
            s.canceled, .undefined,
            st1.trace ++ [Event.call action params, Event.trxCommit,
              Event.resetCurrentRequest, Event.exitContext]⟩)) := by
  have hcases : ∀ rv s1, executeTransaction rt slice portType s = some (rv, s1) →
      (rv.fail = true ∧ s1.builder = s.builder) ∨
      (rv.fail = false ∧ ∃ action params value, rt.call action params = .returned value ∧
        s1.builder = s.builder ++
          [if value.IsUndefined then VPackSlice.noneSlice else rt.v8ToVPack value]) := by
    intro rv s1 h
    by_cases hslice : slice.isObject = true
    · by_cases hctx : rt.contextAvailable = true
      · by_cases hport : rt.setPortType portType = true
        · rw [executeTransaction_eq rt slice portType s _ _ hslice hctx hport rfl] at h
          split at h
          · rename_i caught htc
            split at h
            · simp only [Option.some.injEq, Prod.mk.injEq] at h
              obtain ⟨rfl, rfl⟩ := h
              exact Or.inl ⟨rfl, rfl⟩
            · simp at h
          · split at h
            · rename_i hf
              simp only [Option.some.injEq, Prod.mk.injEq] at h
              obtain ⟨rfl, rfl⟩ := h
              exact Or.inl ⟨hf, rfl⟩
            · rename_i hf
              split at h
              · simp at h
              · rename_i result hres
                simp only [Option.some.injEq, Prod.mk.injEq] at h
                obtain ⟨rfl, rfl⟩ := h
                obtain ⟨action, params, _, _, _, hcall⟩ :=
                  executeTransactionJS_result rt _ _ result rfl rfl hres
                exact Or.inr ⟨by simpa using hf, action, params, result, hcall, rfl⟩
        · have hp : rt.setPortType portType = false := by simpa using hport
          rw [executeTransaction_no_portType rt slice portType s hslice hctx hp] at h
          simp only [Option.some.injEq, Prod.mk.injEq] at h
          obtain ⟨rfl, rfl⟩ := h
          exact Or.inl ⟨rfl, rfl⟩
      · have hc : rt.contextAvailable = false := by simpa using hctx
        rw [executeTransaction_no_context rt slice portType s hslice hc] at h
        simp only [Option.some.injEq, Prod.mk.injEq] at h
        obtain ⟨rfl, rfl⟩ := h
        exact Or.inl ⟨rfl, rfl⟩
    · have hs : slice.isObject = false := by simpa using hslice
      rw [executeTransaction_not_object rt slice portType s hs] at h
      simp only [Option.some.injEq, Prod.mk.injEq] at h
      obtain ⟨rfl, rfl⟩ := h
      exact Or.inl ⟨rfl, rfl⟩
  refine ⟨?_, ?_, ?_⟩
  · intro rv s1 h hf
    rcases hcases rv s1 h with ⟨_, hb⟩ | ⟨hf2, _⟩
    · exact hb
    · rw [hf] at hf2; simp at hf2
  · intro rv s1 h hf
    rcases hcases rv s1 h with ⟨hf2, _⟩ | ⟨_, hb⟩
    · rw [hf] at hf2; simp at hf2
    · exact hb
  · intro action params rv0 st1 value hslice hctx hport hprep hcall hok
    obtain ⟨_, _, _, _, hrv, _, _, _, htc⟩ := prepareTransaction_ok _ _ _ _ _ _ _ hprep
    have hcc := prepareTransaction_ok_canContinue _ _ _ _ _ _ _ hprep
    have htc1 : st1.tryCatch = none := htc rfl
    have hjs : executeTransactionJS rt (rt.vpackToV8 slice)
        ⟨none, none, true,
          s.trace ++ [Event.enterContext, Event.setCurrentRequest (portRequest portType)]⟩ =
        (rt.trxCommit (st1.trace ++ [Event.call action params]),
          { result := some value, tryCatch := none, canContinue := true,
            trace := st1.trace ++ [Event.call action params, Event.trxCommit] }) := by
      simp [executeTransactionJS, hprep, invokeAction, hcall, htc1, finishTransaction, hrv,
        hcc]
    rw [executeTransaction_eq rt slice portType s _ _ hslice hctx hport hjs]
    simp [hok]

/-- C15 (worked input): source text that returns `42`; one value, the encoding of
`42`, is added to the builder. -/
theorem executeTransaction_builder_witness :
    executeTransaction (sampleRuntimeEncoding fun _ _ => .returned (.number (.finite 42 0)))
      sliceReturning "tcp" freshServer =
      some (Result.success,
        ⟨[.number (.finite 42 0)], false, .undefined,
          [Event.enterContext, Event.setCurrentRequest (portRequest "tcp"),
            Event.newFunction "return (function (params) \x7b return 42; \x7d)(params);",
            Event.trxConstruct false ["c"] [] [] sampleOptions, Event.trxBegin,
            Event.call 0 .undefined, Event.trxCommit, Event.resetCurrentRequest,
            Event.exitContext]⟩) :=
  (executeTransaction_builder
    (sampleRuntimeEncoding fun _ _ => .returned (.number (.finite 42 0)))
    sliceReturning "tcp" freshServer).2.2 0 .undefined Result.success
    ⟨none, none, true,
      [Event.enterContext, Event.setCurrentRequest (portRequest "tcp"),
        Event.newFunction "return (function (params) \x7b return 42; \x7d)(params);",
        Event.trxConstruct false ["c"] [] [] sampleOptions, Event.trxBegin]⟩
    (.number (.finite 42 0)) rfl rfl rfl rfl rfl rfl

/-! ## `waitForSync` -/

/-- C16 (the code at the failing input): line 211 converts the key, not the value
of the attribute.  For every runtime there is a boolean `b` such that the request
with `waitForSync: b` is decoded into options whose `waitForSync` is not `b`; and
on the sample runtime, where a string converts to `false`, the request with
`waitForSync: true` constructs its transaction with `waitForSync = false`. -/
theorem waitForSync_not_transcribed :
    (∀ rt : Runtime, ∃ (b : Bool) (request : Request),
      decodeRequest rt (requestWaitForSync b) = .ok request ∧
      request.trxOptions.waitForSync ≠ b) ∧
    (executeTransactionJS (sampleRuntime fun _ _ => .returned .undefined)
      (requestWaitForSync true) freshJS).2.trace =
      [Event.trxConstruct false ["c"] [] []
          { sampleOptions with waitForSync := false },
        Event.trxBegin, Event.call 7 .undefined, Event.trxCommit] := by
  refine ⟨?_, rfl⟩
  intro rt
  have h : ∀ b, decodeRequest rt (requestWaitForSync b) =
      .ok ⟨{ rt.defaultOptions with waitForSync := rt.otherToBoolean (.string "waitForSync") },
        ["c"], [], [], .undefined, false⟩ := fun b => rfl
  refine ⟨!(rt.otherToBoolean (.string "waitForSync")), _, h _, ?_⟩
  cases rt.otherToBoolean (.string "waitForSync") <;> simp

/-! ## Native exceptions -/

/-- C17 (as amended): when the action of a validated and begun transaction raises
a native exception, other than an application-level exception that carries the
error number `0`, `executeTransactionJS` returns a failed result and does not call
`commit()` (nothing is called after the action): an application-level exception
maps to its code and message, an allocation failure to `TRI_ERROR_OUT_OF_MEMORY`,
any other standard exception to `TRI_ERROR_INTERNAL` with its message, and an
unknown exception to `TRI_ERROR_INTERNAL` with the message of line 408. -/
theorem executeTransactionJS_native (rt : Runtime) (arg : V8Value) (st st1 : JSState)
    (action : Nat) (params : V8Value) (rv : Result) (ex : NativeException)
    (hprep : prepareTransaction rt arg st = .ok (action, params, rv, st1))
    (hcall : rt.call action params = .native ex)
    (hcode : ∀ what, ex ≠ .arango 0 what) :
    executeTransactionJS rt arg st =
      (nativeResult rt ex, { st1 with trace := st1.trace ++ [Event.call action params] }) ∧
    (nativeResult rt ex).fail = true ∧
    commitCalls (executeTransactionJS rt arg st).2.trace = commitCalls st.trace ∧
    (∀ code what, ex = .arango code what → nativeResult rt ex = ⟨code, what⟩) ∧
    (ex = .badAlloc → (nativeResult rt ex).errorNumber = TRI_ERROR_OUT_OF_MEMORY) ∧
    (∀ what, ex = .std what → nativeResult rt ex = ⟨TRI_ERROR_INTERNAL, what⟩) ∧
    (ex = .unknown → nativeResult rt ex =
      ⟨TRI_ERROR_INTERNAL, "caught unknown exception during transaction"⟩) := by
  have hfail : (nativeResult rt ex).fail = true := by
    cases ex with
    | arango code what =>
      have : code ≠ 0 := fun h => hcode what (by rw [h])
      simp [nativeResult, Result.fail, Result.ok, TRI_ERROR_NO_ERROR, this]
    | badAlloc =>
      simp [nativeResult, Result.reset, Result.fail, Result.ok, TRI_ERROR_NO_ERROR,
        TRI_ERROR_OUT_OF_MEMORY]
    | std what =>
      simp [nativeResult, Result.fail, Result.ok, TRI_ERROR_NO_ERROR, TRI_ERROR_INTERNAL]
    | unknown =>
      simp [nativeResult, Result.fail, Result.ok, TRI_ERROR_NO_ERROR, TRI_ERROR_INTERNAL]
  have key : executeTransactionJS rt arg st =
      (nativeResult rt ex, { st1 with trace := st1.trace ++ [Event.call action params] }) := by
    simp [executeTransactionJS, hprep, invokeAction, hcall, finishTransaction, hfail]
  obtain ⟨hc, _⟩ := prepareTransaction_ok_calls rt arg st st1 action params rv hprep
  refine ⟨key, hfail, ?_, ?_, ?_, ?_, ?_⟩
  · rw [key]
    simp [commitCalls, List.countP_append] at hc ⊢
    exact hc
  · rintro code what rfl; rfl
  · rintro rfl; rfl
  · rintro what rfl; rfl
  · rintro rfl; rfl

/-- C17 (witness): an application-level exception with code `1200`. -/
theorem executeTransactionJS_native_witness :
    executeTransactionJS (sampleRuntime fun _ _ => .native (.arango 1200 "conflict"))
      requestRead freshJS =
      (⟨1200, "conflict"⟩,
        ⟨none, none, true,
          [Event.trxConstruct false ["c"] [] [] sampleOptions, Event.trxBegin,
            Event.call 7 .undefined]⟩) :=
  (executeTransactionJS_native (sampleRuntime fun _ _ => .native (.arango 1200 "conflict"))
    requestRead freshJS
    ⟨none, none, true, [Event.trxConstruct false ["c"] [] [] sampleOptions, Event.trxBegin]⟩
    7 .undefined Result.success (.arango 1200 "conflict") rfl rfl
    (fun what h => by cases h)).1

/-- C17 (counterexample): an application-level exception that carries the error
number `0` does not give a failed result, and `commit()` is called. -/
theorem executeTransactionJS_native_code_zero :
    (executeTransactionJS (sampleRuntime fun _ _ => .native (.arango 0 "no error"))
      requestRead freshJS).1.fail = false ∧
    (executeTransactionJS (sampleRuntime fun _ _ => .native (.arango 0 "no error"))
      requestRead freshJS).2.trace =
      [Event.trxConstruct false ["c"] [] [] sampleOptions, Event.trxBegin,
        Event.call 7 .undefined, Event.trxCommit] :=
  ⟨rfl, rfl⟩

/-! ## The canceled flag and the context -/

theorem enterAndExecute_error (rt : Runtime) (slice : VPackSlice) (portType : String)
    (s : ServerState) (rv : Result) (s1 : ServerState)
    (h : enterAndExecute rt slice portType s = .error (rv, s1)) :
    s1.canceled = s.canceled ∧ s1.builder = s.builder := by
  unfold enterAndExecute at h
  split at h
  · simp only [Except.error.injEq, Prod.mk.injEq] at h
    obtain ⟨_, rfl⟩ := h
    exact ⟨rfl, rfl⟩
  · split at h
    · simp only [Except.error.injEq, Prod.mk.injEq] at h
      obtain ⟨_, rfl⟩ := h
      exact ⟨rfl, rfl⟩
    · split at h
      · simp only [Except.error.injEq, Prod.mk.injEq] at h
        obtain ⟨_, rfl⟩ := h
        exact ⟨rfl, rfl⟩
      · simp at h

theorem enterAndExecute_ok (rt : Runtime) (slice : VPackSlice) (portType : String)
    (s : ServerState) (rv0 : Result) (js : JSState) (s1 : ServerState)
    (h : enterAndExecute rt slice portType s = .ok (rv0, js, s1)) :
    slice.isObject = true ∧ rt.contextAvailable = true ∧ rt.setPortType portType = true ∧
    executeTransactionJS rt (rt.vpackToV8 slice)
      ⟨none, none, true,
        s.trace ++ [Event.enterContext, Event.setCurrentRequest (portRequest portType)]⟩ =
      (rv0, js) ∧
    s1 = ⟨s.builder, if js.canContinue then s.canceled else true, .undefined,
      js.trace ++ [Event.resetCurrentRequest]⟩ := by
  by_cases hslice : slice.isObject = true
  · by_cases hctx : rt.contextAvailable = true
    · by_cases hport : rt.setPortType portType = true
      · cases hjs : executeTransactionJS rt (rt.vpackToV8 slice)
          ⟨none, none, true,
            s.trace ++ [Event.enterContext,
              Event.setCurrentRequest (portRequest portType)]⟩ with
        | mk r j =>
          rw [enterAndExecute_eq rt slice portType s r j hslice hctx hport hjs] at h
          simp only [Except.ok.injEq, Prod.mk.injEq] at h
          obtain ⟨rfl, rfl, rfl⟩ := h
          exact ⟨hslice, hctx, hport, rfl, rfl⟩
      · simp [enterAndExecute, hslice, hctx, hport] at h
    · simp [enterAndExecute, hslice, hctx] at h
  · simp [enterAndExecute, hslice] at h

theorem executeTransaction_some (rt : Runtime) (slice : VPackSlice) (portType : String)
    (s : ServerState) (rv : Result) (s1 : ServerState)
    (hslice : slice.isObject = true) (hctx : rt.contextAvailable = true)
    (hport : rt.setPortType portType = true)
    (h : executeTransaction rt slice portType s = some (rv, s1)) :
    s1.canceled = (if (executeTransactionJS rt (rt.vpackToV8 slice)
        ⟨none, none, true,
          s.trace ++ [Event.enterContext,
            Event.setCurrentRequest (portRequest portType)]⟩).2.canContinue
        then s.canceled else true) ∧
    s1.trace = (executeTransactionJS rt (rt.vpackToV8 slice)
        ⟨none, none, true,
          s.trace ++ [Event.enterContext,
            Event.setCurrentRequest (portRequest portType)]⟩).2.trace ++
          [Event.resetCurrentRequest, Event.exitContext] ∧
    s1.currentRequest = .undefined := by
  rw [executeTransaction_eq rt slice portType s _ _ hslice hctx hport rfl] at h
  split at h
  · split at h
    · simp only [Option.some.injEq, Prod.mk.injEq] at h
      obtain ⟨_, rfl⟩ := h
      exact ⟨rfl, rfl, rfl⟩
    · simp at h
  · split at h
    · simp only [Option.some.injEq, Prod.mk.injEq] at h
      obtain ⟨_, rfl⟩ := h
      exact ⟨rfl, rfl, rfl⟩
    · split at h
      · simp at h
      · simp only [Option.some.injEq, Prod.mk.injEq] at h
        obtain ⟨_, rfl⟩ := h
        exact ⟨rfl, rfl, rfl⟩

/-- C18: `executeTransaction` marks the execution context as canceled (line 78)
exactly when the action was invoked, left a pending script exception, and the
runtime reported that it cannot continue: after line 79 the flag is set on such a
run and is as it was on every other run, and it is as it was on every early return.
Lines 81 to 99 leave the flag as line 79 left it, so that every run that returns and
is not of the first kind returns with the flag as it was.  A run of the first kind
does reach line 79 with the flag set; when its exception is not converted, which is
so after a termination, line 83 then reads the message of an exception that has
none, and the run has no answer. -/
theorem executeTransaction_canceled (rt : Runtime) (slice : VPackSlice) (portType : String)
    (s : ServerState) :
    (∀ rv0 js s1, enterAndExecute rt slice portType s = .ok (rv0, js, s1) →
      ((∃ action params rv st1 caught,
          prepareTransaction rt (rt.vpackToV8 slice)
            ⟨none, none, true,
              s.trace ++ [Event.enterContext,
                Event.setCurrentRequest (portRequest portType)]⟩ =
            .ok (action, params, rv, st1) ∧
          rt.call action params = .threw caught ∧ caught.canContinue = false) →
        s1.canceled = true) ∧
      (¬ (∃ action params rv st1 caught,
          prepareTransaction rt (rt.vpackToV8 slice)
            ⟨none, none, true,
              s.trace ++ [Event.enterContext,
                Event.setCurrentRequest (portRequest portType)]⟩ =
            .ok (action, params, rv, st1) ∧
          rt.call action params = .threw caught ∧ caught.canContinue = false) →
        s1.canceled = s.canceled)) ∧
    (∀ rv s1, enterAndExecute rt slice portType s = .error (rv, s1) →
      s1.canceled = s.canceled) ∧
    (∀ rv s1 rv0 js s0, executeTransaction rt slice portType s = some (rv, s1) →
      enterAndExecute rt slice portType s = .ok (rv0, js, s0) →
      s1.canceled = s0.canceled) ∧
    (∀ rv s1, executeTransaction rt slice portType s = some (rv, s1) →
      ¬ (slice.isObject = true ∧ rt.contextAvailable = true ∧
        rt.setPortType portType = true ∧
        ∃ action params rv0 st1 caught,
          prepareTransaction rt (rt.vpackToV8 slice)
            ⟨none, none, true,
              s.trace ++ [Event.enterContext,
                Event.setCurrentRequest (portRequest portType)]⟩ =
            .ok (action, params, rv0, st1) ∧
          rt.call action params = .threw caught ∧ caught.canContinue = false) →
      s1.canceled = s.canceled) ∧
    (∀ action params rv0 st1 caught, slice.isObject = true → rt.contextAvailable = true →
      rt.setPortType portType = true →
      prepareTransaction rt (rt.vpackToV8 slice)
        ⟨none, none, true,
          s.trace ++ [Event.enterContext, Event.setCurrentRequest (portRequest portType)]⟩ =
        .ok (action, params, rv0, st1) →
      rt.call action params = .threw caught → caught.canContinue = false →
      (∃ rv js s1, enterAndExecute rt slice portType s = .ok (rv, js, s1) ∧
        js.canContinue = false ∧ s1.canceled = true) ∧
      ((extractArangoError rt caught).1.2.1 = false →
        executeTransaction rt slice portType s = none)) := by
  refine ⟨?_, ?_, ?_, ?_, ?_⟩
  · intro rv0 js s1 h
    obtain ⟨_, _, _, hjs, rfl⟩ := enterAndExecute_ok rt slice portType s rv0 js s1 h
    have hiff := executeTransactionJS_canContinue rt (rt.vpackToV8 slice)
      ⟨none, none, true,
        s.trace ++ [Event.enterContext, Event.setCurrentRequest (portRequest portType)]⟩ rfl
    rw [hjs] at hiff
    constructor
    · intro hex
      have hc : js.canContinue = false := hiff.mpr hex
      simp [hc]
    · intro hnot
      have hc : js.canContinue = true := by
        by_contra hc
        exact hnot (hiff.mp (by simpa using hc))
      simp [hc]
  · intro rv s1 h
    exact (enterAndExecute_error rt slice portType s rv s1 h).1
  · intro rv s1 rv0 js s0 h h0
    obtain ⟨hslice, hctx, hport, hjs, rfl⟩ :=
      enterAndExecute_ok rt slice portType s rv0 js s0 h0
    rw [(executeTransaction_some rt slice portType s rv s1 hslice hctx hport h).1, hjs]
  · intro rv s1 h hnot
    by_cases hslice : slice.isObject = true
    · by_cases hctx : rt.contextAvailable = true
      · by_cases hport : rt.setPortType portType = true
        · rw [(executeTransaction_some rt slice portType s rv s1 hslice hctx hport h).1]
          have : (executeTransactionJS rt (rt.vpackToV8 slice)
              ⟨none, none, true,
                s.trace ++ [Event.enterContext,
                  Event.setCurrentRequest (portRequest portType)]⟩).2.canContinue = true := by
            by_contra hc
            have hc2 := (executeTransactionJS_canContinue rt _ _ rfl).mp
              (by simpa using hc)
            exact hnot ⟨hslice, hctx, hport, hc2⟩
          simp [this]
        · have hp : rt.setPortType portType = false := by simpa using hport
          rw [executeTransaction_no_portType rt slice portType s hslice hctx hp] at h
          simp only [Option.some.injEq, Prod.mk.injEq] at h
          obtain ⟨_, rfl⟩ := h
          rfl
      · have hc : rt.contextAvailable = false := by simpa using hctx
        rw [executeTransaction_no_context rt slice portType s hslice hc] at h
        simp only [Option.some.injEq, Prod.mk.injEq] at h
        obtain ⟨_, rfl⟩ := h
        rfl
    · have hs : slice.isObject = false := by simpa using hslice
      rw [executeTransaction_not_object rt slice portType s hs] at h
      simp only [Option.some.injEq, Prod.mk.injEq] at h
      obtain ⟨_, rfl⟩ := h
      rfl
  · intro action params rv0 st1 caught hslice hctx hport hprep hcall hcan
    have hcc : (executeTransactionJS rt (rt.vpackToV8 slice)
        ⟨none, none, true,
          s.trace ++ [Event.enterContext,
            Event.setCurrentRequest (portRequest portType)]⟩).2.canContinue = false :=
      (executeTransactionJS_canContinue rt _ _ rfl).mpr
        ⟨action, params, rv0, st1, caught, hprep, hcall, hcan⟩
    constructor
    · cases hjs : executeTransactionJS rt (rt.vpackToV8 slice)
        ⟨none, none, true,
          s.trace ++ [Event.enterContext,
            Event.setCurrentRequest (portRequest portType)]⟩ with
      | mk r j =>
        rw [hjs] at hcc
        have hj : j.canContinue = false := hcc
        refine ⟨_, _, _, enterAndExecute_eq rt slice portType s r j hslice hctx hport hjs,
          hj, ?_⟩
        simp [hj]
    · intro hconv
      obtain ⟨_, _, _, _, hrv, _, _, _, _⟩ := prepareTransaction_ok _ _ _ _ _ _ _ hprep
      obtain ⟨hx1, hx2⟩ := extractArangoError_canContinue rt caught
      have htc : (extractArangoError rt caught).2 = some caught := by
        rcases hx2 with ⟨h1, _⟩ | ⟨_, h2⟩
        · rw [hconv] at h1; simp at h1
        · exact h2
      have hjs : executeTransactionJS rt (rt.vpackToV8 slice)
          ⟨none, none, true,
            s.trace ++ [Event.enterContext,
              Event.setCurrentRequest (portRequest portType)]⟩ =
          finishTransaction rt
            (if (extractArangoError rt caught).1.2.1 then
              (extractArangoError rt caught).1.2.2 else rv0)
            { result := none, tryCatch := (extractArangoError rt caught).2,
              canContinue := (extractArangoError rt caught).1.1,
              trace := st1.trace ++ [Event.call action params, Event.trxAbort] } := by
        simp [executeTransactionJS, hprep, invokeAction, hcall]
      have htc2 : (executeTransactionJS rt (rt.vpackToV8 slice)
          ⟨none, none, true,
            s.trace ++ [Event.enterContext,
              Event.setCurrentRequest (portRequest portType)]⟩).2.tryCatch =
          some caught := by
        rw [hjs, (finishTransaction_state rt _ _).2.1]
        exact htc
      cases hpair : executeTransactionJS rt (rt.vpackToV8 slice)
          ⟨none, none, true,
            s.trace ++ [Event.enterContext,
              Event.setCurrentRequest (portRequest portType)]⟩ with
      | mk r j =>
        rw [hpair] at htc2
        have hj : j.tryCatch = some caught := htc2
        rw [executeTransaction_eq rt slice portType s r j hslice hctx hport hpair]
        simp only [hj, hcan]
        rfl

/-- C18 (worked input): the execution is terminated while the action runs, so that
the runtime cannot continue; after line 79 the context is marked as canceled, and
line 83 then finds no message to read. -/
theorem executeTransaction_canceled_witness :
    (∃ rv js s1, enterAndExecute (sampleRuntime fun _ _ => .threw caughtTermination)
        sliceThrowing "tcp" freshServer = .ok (rv, js, s1) ∧
      js.canContinue = false ∧ s1.canceled = true) ∧
    executeTransaction (sampleRuntime fun _ _ => .threw caughtTermination)
      sliceThrowing "tcp" freshServer = none :=
  have h := (executeTransaction_canceled (sampleRuntime fun _ _ => .threw caughtTermination)
    sliceThrowing "tcp" freshServer).2.2.2.2 0 .undefined Result.success
    ⟨none, none, true,
      [Event.enterContext, Event.setCurrentRequest (portRequest "tcp"),
        Event.newFunction
          "return (function (params) \x7b throw \x27oops\x27; \x7d)(params);",
        Event.trxConstruct false ["c"] [] [] sampleOptions, Event.trxBegin]⟩
    caughtTermination rfl rfl rfl rfl rfl rfl
  ⟨h.1, h.2 rfl⟩

theorem exitCalls_suffix (suffix : List Event)
    (h : ∀ e ∈ suffix, e ≠ Event.enterContext ∧ e ≠ Event.exitContext ∧
      e ≠ Event.resetCurrentRequest ∧ ∀ request, e ≠ Event.setCurrentRequest request) :
    exitCalls suffix = 0 := by
  unfold exitCalls
  rw [List.countP_eq_zero]
  intro e he
  have := (h e he).2.1
  cases e <;> simp_all

/-- C19: on a run of `executeTransaction` that acquires an execution context and
returns, whatever the outcome, `exitContext` is called exactly once, as the last
call of the run; when the current-request slot was set, it has been reset before
that call, and it is `undefined` afterwards.  On a run on which no context could be
acquired the result is `TRI_ERROR_INTERNAL` and `exitContext` is not called.  A run
returns exactly when the runtime can continue after the exception that is pending,
if there is one, and an exception is pending, the result is a failure, or the action
has left a value. -/
theorem executeTransaction_exitContext (rt : Runtime) (slice : VPackSlice)
    (portType : String) (s : ServerState) (hslice : slice.isObject = true) :
    (rt.contextAvailable = false →
      executeTransaction rt slice portType s =
        some (⟨TRI_ERROR_INTERNAL, "unable to get v8 context"⟩,
          { s with trace := s.trace ++ [Event.enterContext] })) ∧
    (rt.contextAvailable = true → rt.setPortType portType = false →
      executeTransaction rt slice portType s =
        some (⟨TRI_ERROR_INTERNAL, "could not set porttype"⟩,
          { s with trace := s.trace ++ [Event.enterContext, Event.exitContext] })) ∧
    (rt.contextAvailable = true → rt.setPortType portType = true →
      ∀ rv s1, executeTransaction rt slice portType s = some (rv, s1) →
        ∃ suffix, s1.trace = s.trace ++
            [Event.enterContext, Event.setCurrentRequest (portRequest portType)] ++ suffix ++
            [Event.resetCurrentRequest, Event.exitContext] ∧
          (∀ e ∈ suffix, e ≠ Event.enterContext ∧ e ≠ Event.exitContext ∧
            e ≠ Event.resetCurrentRequest ∧ ∀ request, e ≠ Event.setCurrentRequest request) ∧
          s1.currentRequest = .undefined ∧
          exitCalls s1.trace = exitCalls s.trace + 1) ∧
    (rt.contextAvailable = true → rt.setPortType portType = true →
      ∀ rv0 js, executeTransactionJS rt (rt.vpackToV8 slice)
          ⟨none, none, true,
            s.trace ++ [Event.enterContext, Event.setCurrentRequest (portRequest portType)]⟩ =
          (rv0, js) →
        ((∀ caught, js.tryCatch = some caught → caught.canContinue = true) →
          (js.tryCatch ≠ none ∨ rv0.fail = true ∨ js.result ≠ none) →
          (executeTransaction rt slice portType s).isSome = true) ∧
        ((executeTransaction rt slice portType s).isSome = true →
          (∀ caught, js.tryCatch = some caught → caught.canContinue = true) ∧
          (js.tryCatch ≠ none ∨ rv0.fail = true ∨ js.result ≠ none))) := by
  refine ⟨fun hc => executeTransaction_no_context rt slice portType s hslice hc,
    fun hc hp => executeTransaction_no_portType rt slice portType s hslice hc hp, ?_, ?_⟩
  · intro hctx hport rv s1 h
    obtain ⟨suffix, hs, hev⟩ := executeTransactionJS_events rt (rt.vpackToV8 slice)
      ⟨none, none, true,
        s.trace ++ [Event.enterContext, Event.setCurrentRequest (portRequest portType)]⟩
    obtain ⟨_, ht, hcr⟩ :=
      executeTransaction_some rt slice portType s rv s1 hslice hctx hport h
    refine ⟨suffix, by rw [ht, hs], hev, hcr, ?_⟩
    rw [ht, hs]
    have h0 := exitCalls_suffix suffix hev
    simp only [exitCalls, List.countP_append] at h0 ⊢
    simp [h0]
  · intro hctx hport rv0 js hjs
    rw [executeTransaction_eq rt slice portType s _ _ hslice hctx hport hjs]
    cases htc : js.tryCatch with
    | some caught =>
      cases hc : caught.canContinue with
      | true =>
        refine ⟨fun _ _ => by simp [hc], fun _ => ⟨?_, Or.inl (by simp)⟩⟩
        intro c hcs
        simp only [Option.some.injEq] at hcs
        rw [← hcs, hc]
      | false =>
        refine ⟨fun hmsg _ => ?_, fun h => by simp [hc] at h⟩
        have := hmsg caught rfl
        rw [hc] at this
        simp at this
    | none =>
      simp only []
      by_cases hf : rv0.fail = true
      · exact ⟨fun _ _ => by simp [hf], fun _ => ⟨fun c hcs => by simp at hcs,
          Or.inr (Or.inl hf)⟩⟩
      · cases hr : js.result with
        | none =>
          refine ⟨fun _ hret => ?_, fun h => by simp [hf] at h⟩
          rcases hret with h | h | h
          · exact absurd rfl h
          · exact absurd h hf
          · exact absurd rfl h
        | some v =>
          exact ⟨fun _ _ => by simp [hf], fun _ => ⟨fun c hcs => by simp at hcs,
            Or.inr (Or.inr (by simp))⟩⟩

/-- C19 (witness): without a context the result is `TRI_ERROR_INTERNAL` and
`exitContext` is not called. -/
theorem executeTransaction_exitContext_witness :
    executeTransaction sampleRuntimeNoContext sliceReturning "tcp" freshServer =
      some (⟨TRI_ERROR_INTERNAL, "unable to get v8 context"⟩,
        ⟨[], false, .undefined, [Event.enterContext]⟩) :=
  (executeTransaction_exitContext sampleRuntimeNoContext sliceReturning "tcp" freshServer
    rfl).1 rfl

/-- C20: for a top-level value that is not an object, `executeTransaction` fails
with `TRI_ERROR_BAD_PARAMETER` and the message `body is not an object`, and it
leaves everything as it was: no execution context is acquired, no transaction is
constructed, and the output builder is unchanged. -/
theorem executeTransaction_body_not_object (rt : Runtime) (slice : VPackSlice)
    (portType : String) (s : ServerState) (h : slice.isObject = false) :
    executeTransaction rt slice portType s =
      some (⟨TRI_ERROR_BAD_PARAMETER, "body is not an object"⟩, s) ∧
    (Result.mk TRI_ERROR_BAD_PARAMETER "body is not an object").fail = true := by
  exact ⟨executeTransaction_not_object rt slice portType s h, rfl⟩

/-- C20 (witness): an array as the top-level value. -/
theorem executeTransaction_body_not_object_witness :
    executeTransaction (sampleRuntime fun _ _ => .returned .undefined)
      (.array [.string "a"]) "tcp" freshServer =
      some (⟨TRI_ERROR_BAD_PARAMETER, "body is not an object"⟩, freshServer) :=
  (executeTransaction_body_not_object (sampleRuntime fun _ _ => .returned .undefined)
    (.array [.string "a"]) "tcp" freshServer rfl).1

end arangodb
